import Mathlib

/-!
Formal model of the CP216 ARM/Thumb instruction simulator with cache
hierarchy (files `cache.py`, `ARM_decoder.py`, `thumb_decoder.py`,
`enhanced_executor.py`).  Python integers are unbounded, so machine words
are modelled as `Nat` (registers, memory bytes, cpsr) and signed
intermediate results (compare results, sign-extended branch offsets) as
`Int`.  Python's bitwise operators on nonnegative ints map directly to
`Nat`'s `&&&`, `|||`, `^^^`, `<<<`, `>>>`; the few operations that touch
negative ints or complements are embedded by small arithmetic helpers,
each documented at its definition.
-/

set_option maxHeartbeats 1600000

namespace ArmSim

/-- Python `x & 0xFFFFFFFF` on an arbitrary (possibly negative) int: the
result is the unique representative of x mod 2^32 in [0, 2^32).  `Int`'s
`%` is `Int.emod`, whose result is nonnegative for a positive modulus,
matching Python's `&` with an all-ones mask. -/
def mask32 (x : Int) : Nat := (x % 4294967296).toNat

/-- Python `x & (1 << p) != 0` on an arbitrary int: bit p of the two's
complement representation of x, i.e. whether x mod 2^(p+1) is at least
2^p. -/
def int_bit (x : Int) (p : Nat) : Bool := decide ((2 : Int) ^ p ≤ x % 2 ^ (p + 1))

/-- Python `x | 0xFF000000` on an arbitrary int: bits 24..31 of the two's
complement form are forced to 1 and all other bits kept, which is adding
`(255 - bits24to31 x) * 2^24` where `bits24to31 x = (x fdiv 2^24) mod 256`
is the value of those eight bits (Python `//` is `Int.fdiv` and its `%`
on a positive modulus is `Int.emod`). -/
def or_ff000000 (x : Int) : Int := x + (255 - (x.fdiv (2 ^ 24)) % 256) * 2 ^ 24

/-- Python `x & ~y` for nonnegative ints x and y: clears in x every bit
set in y.  Since `x &&& y` is exactly the common bits, xoring them out of
x leaves x with y's bits cleared. -/
def py_and_not (x y : Nat) : Nat := x ^^^ (x &&& y)

/- ================================================================
   cache.py
   ================================================================ -/

/-- `CacheLine.__init__`: valid=False, tag=None, dirty=False.  The tag is
`Option Nat` because Python initialises it to `None`; Python's
`None == tag` comparison with an int is `False`, matching
`(none : Option Nat) = some t` being false. -/
structure CacheLine where
  valid : Bool
  tag : Option Nat
  dirty : Bool
deriving DecidableEq

/-- `BaseCache`: configuration, line array and statistics counters. -/
structure BaseCache where
  size : Nat
  block_size : Nat
  mapping : String
  num_blocks : Nat
  lines : List CacheLine
  accesses : Nat
  hits : Nat
  misses : Nat
  write_backs : Nat

/-- `BaseCache.__init__(size, block_size, mapping)`:
num_blocks = size // block_size, all lines fresh, counters zero. -/
def BaseCache.make (size block_size : Nat) (mapping : String) : BaseCache :=
  { size := size
    block_size := block_size
    mapping := mapping
    num_blocks := size / block_size
    lines := List.replicate (size / block_size) ⟨false, none, false⟩
    accesses := 0
    hits := 0
    misses := 0
    write_backs := 0 }

/-- `BaseCache.get_index_and_tag`: block_number = address // block_size;
index = block_number % num_blocks for direct mapping, else 0; the tag is
the whole block number. -/
def BaseCache.get_index_and_tag (c : BaseCache) (address : Nat) : Nat × Nat :=
  let block_number := address / c.block_size
  let index := if c.mapping = "direct" then block_number % c.num_blocks else 0
  (index, block_number)

/-- `BaseCache.access(address, is_write)`: returns the hit flag together
with the updated cache (Python mutates in place).  Line reads use the
fresh line as `getD` default; every reachable index is below
`num_blocks = lines.length`, where Python's `self.lines[index]` is
defined. -/
def BaseCache.access (c : BaseCache) (address : Nat) (is_write : Bool) :
    Bool × BaseCache :=
  let c := { c with accesses := c.accesses + 1 }
  let it := c.get_index_and_tag address
  let index := it.1
  let tag := it.2
  let line := c.lines.getD index ⟨false, none, false⟩
  if line.valid = true ∧ line.tag = some tag then
    (true,
      { c with
        hits := c.hits + 1
        lines := if is_write then c.lines.set index { line with dirty := true } else c.lines })
  else
    let c := { c with misses := c.misses + 1 }
    let c :=
      if line.valid = true ∧ line.dirty = true then
        { c with write_backs := c.write_backs + 1 }
      else c
    (false, { c with lines := c.lines.set index ⟨true, some tag, is_write⟩ })

/-- `BaseCache.reset_stats`: zero the four counters, lines untouched. -/
def BaseCache.reset_stats (c : BaseCache) : BaseCache :=
  { c with accesses := 0, hits := 0, misses := 0, write_backs := 0 }

/-- `CacheSimulator`: three cache levels plus the `defaultdict(int)`
stats map, modelled as a total function with default 0. -/
structure CacheSimulator where
  L1I : BaseCache
  L1D : BaseCache
  L2 : BaseCache
  stats : String → Nat

/-- `self.stats[key] += 1` on a `defaultdict(int)`. -/
def bumpStat (f : String → Nat) (key : String) : String → Nat :=
  fun k => if k = key then f k + 1 else f k

/-- `CacheSimulator.__init__`. -/
def CacheSimulator.make (l1i l1d l2 : BaseCache) : CacheSimulator :=
  { L1I := l1i, L1D := l1d, L2 := l2, stats := fun _ => 0 }

/-- `CacheSimulator.access_instruction`: L1I probe; on miss, L2 probe with
its own hit/miss stat, then count the L1I miss. -/
def CacheSimulator.access_instruction (cs : CacheSimulator) (address : Nat) :
    CacheSimulator :=
  let r1 := cs.L1I.access address false
  if r1.1 = true then
    { cs with L1I := r1.2, stats := bumpStat cs.stats "L1I_hit" }
  else
    let r2 := cs.L2.access address false
    let stats :=
      if r2.1 = true then bumpStat cs.stats "L2_hit" else bumpStat cs.stats "L2_miss"
    { cs with L1I := r1.2, L2 := r2.2, stats := bumpStat stats "L1I_miss" }

/-- `CacheSimulator.access_data(address, is_write)`: L1D probe
(escalating to L2 on miss), write flag threaded through both levels.
The Python method returns `None`; the state is what matters. -/
def CacheSimulator.access_data (cs : CacheSimulator) (address : Nat)
    (is_write : Bool) : CacheSimulator :=
  let r1 := cs.L1D.access address is_write
  if r1.1 = true then
    { cs with L1D := r1.2, stats := bumpStat cs.stats "L1D_hit" }
  else
    let r2 := cs.L2.access address is_write
    let stats :=
      if r2.1 = true then bumpStat cs.stats "L2_hit" else bumpStat cs.stats "L2_miss"
    { cs with L1D := r1.2, L2 := r2.2, stats := bumpStat stats "L1D_miss" }

/-- `CacheSimulator.summarize` result record. -/
structure CacheSummary where
  L1_miss : Nat
  L2_miss : Nat
  write_backs : Nat
  cost : ℚ

/-- `CacheSimulator.summarize`: aggregates stats; cost is the 0.5-weighted
heuristic. -/
def CacheSimulator.summarize (cs : CacheSimulator) : CacheSummary :=
  { L1_miss := cs.stats "L1I_miss" + cs.stats "L1D_miss"
    L2_miss := cs.stats "L2_miss"
    write_backs := cs.L1I.write_backs + cs.L1D.write_backs + cs.L2.write_backs
    cost := (1 / 2 : ℚ) * (cs.stats "L1I_miss" + cs.stats "L1D_miss")
      + (cs.stats "L2_miss" : ℚ)
      + ((cs.L1I.write_backs + cs.L1D.write_backs + cs.L2.write_backs : Nat) : ℚ) }

/-- `CacheSimulator.reset`: clears the stats dict and calls `reset_stats`
on each level.  (It does not touch any `lines` array.) -/
def CacheSimulator.reset (cs : CacheSimulator) : CacheSimulator :=
  { cs with
    stats := fun _ => 0
    L1I := cs.L1I.reset_stats
    L1D := cs.L1D.reset_stats
    L2 := cs.L2.reset_stats }

/- ================================================================
   ARM_decoder.py
   ================================================================ -/

/-- Operand dictionaries `{'rd': ..., 'immediate': ..., ...}` are
association lists from key to int value (branch offsets are the only
negative values the decoders produce). -/
abbrev Operands : Type := List (String × Int)

/-- Python `operands['k']` as used by the executor handlers.  Every
handler is dispatched on a mnemonic whose operand dict contains the keys
it reads, so the `getD 0` default is never reached from decoder
output. -/
def opGet (ops : Operands) (k : String) : Int :=
  (List.lookup k (ops : List (String × Int))).getD 0

/-- Operand value used as a register index / unsigned quantity (Python
uses the dict int directly; decoder register fields and unsigned
immediates are nonnegative, where `Int.toNat` is the identity). -/
def opGetN (ops : Operands) (k : String) : Nat := (opGet ops k).toNat

/-- `ARMDecoder.decode_instruction` (`ARM_decoder.py`): priority cascade
MUL pattern, BX pattern, then the 2-bit class bits 27:26.  The B/BL
offset is sign-extended here (`offset -= 0x1000000`), so it is the one
negative-capable operand.  Unmatched opcodes fall through to
UNKNOWN. -/
def decode_instruction (instruction : Nat) : String × Operands :=
  let opcode := (instruction >>> 21) &&& 0xF
  let i_flag := (instruction >>> 25) &&& 0x1
  let instr_type := (instruction >>> 26) &&& 0x3
  if instr_type = 0b00 ∧ instruction &&& 0x0FC000F0 = 0x00000090 then
    ("MUL", [("rd", ((instruction >>> 16) &&& 0xF : Nat)),
             ("rm", (instruction &&& 0xF : Nat)),
             ("rs", ((instruction >>> 8) &&& 0xF : Nat))])
  else if instruction &&& 0x0FFFFFF0 = 0x012FFF10 then
    ("BX", [("rm", (instruction &&& 0xF : Nat))])
  else if instr_type = 0b00 then
    let rn : Nat := (instruction >>> 16) &&& 0xF
    let rd : Nat := (instruction >>> 12) &&& 0xF
    let operand2 : Nat := instruction &&& 0xFFF
    if i_flag = 1 then
      if opcode = 0b1101 then ("MOV_IMM", [("rd", (rd : Int)), ("immediate", (operand2 : Int))])
      else if opcode = 0b0100 then ("ADD_IMM", [("rd", (rd : Int)), ("rn", (rn : Int)), ("immediate", (operand2 : Int))])
      else if opcode = 0b0010 then ("SUB_IMM", [("rd", (rd : Int)), ("rn", (rn : Int)), ("immediate", (operand2 : Int))])
      else if opcode = 0b1010 then ("CMP_IMM", [("rn", (rn : Int)), ("immediate", (operand2 : Int))])
      else if opcode = 0b0000 then ("AND_IMM", [("rd", (rd : Int)), ("rn", (rn : Int)), ("immediate", (operand2 : Int))])
      else if opcode = 0b0001 then ("EOR_IMM", [("rd", (rd : Int)), ("rn", (rn : Int)), ("immediate", (operand2 : Int))])
      else if opcode = 0b1100 then ("ORR_IMM", [("rd", (rd : Int)), ("rn", (rn : Int)), ("immediate", (operand2 : Int))])
      else if opcode = 0b1110 then ("BIC_IMM", [("rd", (rd : Int)), ("rn", (rn : Int)), ("immediate", (operand2 : Int))])
      else if opcode = 0b1111 then ("MVN_IMM", [("rd", (rd : Int)), ("immediate", (operand2 : Int))])
      else if opcode = 0b1000 then ("TST_IMM", [("rn", (rn : Int)), ("immediate", (operand2 : Int))])
      else if opcode = 0b1001 then ("TEQ_IMM", [("rn", (rn : Int)), ("immediate", (operand2 : Int))])
      else ("UNKNOWN", [])
    else
      let rm : Nat := instruction &&& 0xF
      if opcode = 0b1101 then ("MOV", [("rd", (rd : Int)), ("rm", (rm : Int))])
      else if opcode = 0b0100 then ("ADD", [("rd", (rd : Int)), ("rn", (rn : Int)), ("rm", (rm : Int))])
      else if opcode = 0b0010 then ("SUB", [("rd", (rd : Int)), ("rn", (rn : Int)), ("rm", (rm : Int))])
      else if opcode = 0b1010 then ("CMP", [("rn", (rn : Int)), ("rm", (rm : Int))])
      else if opcode = 0b0000 then ("AND", [("rd", (rd : Int)), ("rn", (rn : Int)), ("rm", (rm : Int))])
      else if opcode = 0b0001 then ("EOR", [("rd", (rd : Int)), ("rn", (rn : Int)), ("rm", (rm : Int))])
      else if opcode = 0b1100 then ("ORR", [("rd", (rd : Int)), ("rn", (rn : Int)), ("rm", (rm : Int))])
      else if opcode = 0b1110 then ("BIC", [("rd", (rd : Int)), ("rn", (rn : Int)), ("rm", (rm : Int))])
      else if opcode = 0b1111 then ("MVN", [("rd", (rd : Int)), ("rm", (rm : Int))])
      else if opcode = 0b1000 then ("TST", [("rn", (rn : Int)), ("rm", (rm : Int))])
      else if opcode = 0b1001 then ("TEQ", [("rn", (rn : Int)), ("rm", (rm : Int))])
      else ("UNKNOWN", [])
  else if instr_type = 0b01 then
    let l_flag := (instruction >>> 20) &&& 0x1
    let rn : Nat := (instruction >>> 16) &&& 0xF
    let rd : Nat := (instruction >>> 12) &&& 0xF
    let offset : Nat := instruction &&& 0xFFF
    if l_flag = 1 then ("LDR", [("rd", (rd : Int)), ("rn", (rn : Int)), ("offset", (offset : Int))])
    else ("STR", [("rd", (rd : Int)), ("rn", (rn : Int)), ("offset", (offset : Int))])
  else if instr_type = 0b10 then
    let link := (instruction >>> 24) &&& 0x1
    let offset0 : Nat := instruction &&& 0xFFFFFF
    let offset : Int :=
      if offset0 &&& 0x800000 ≠ 0 then (offset0 : Int) - 0x1000000 else (offset0 : Int)
    if link = 1 then ("BL", [("offset", offset)]) else ("B", [("offset", offset)])
  else ("UNKNOWN", [])

/- ================================================================
   thumb_decoder.py
   ================================================================ -/

/-- `FixedThumbDecoder.decode_thumb_instruction` (`thumb_decoder.py`):
priority cascade over leading bit prefixes.  The fixed mnemonic tables
(Format 1 shift table, Format 3/5 op tables, Format 4 ALU table) are
embedded with `List.getD` whose sentinel default `"T_INDEX_ERROR"` marks
the indices where Python would raise `IndexError`; the mnemonic-set
theorem shows the sentinel is never produced.  Format 6/7/8's four-way
split is exhaustive on the two bits 12:11, and the empty fall-through of
Python (which would return `None`) is marked `"T_NONE_RETURNED"`,
likewise shown unreachable. -/
def decode_thumb_instruction (instruction : Nat) : String × Operands :=
  let bits_15_13 := (instruction >>> 13) &&& 0b111
  let bits_15_11 := (instruction >>> 11) &&& 0b11111
  let bits_15_10 := (instruction >>> 10) &&& 0b111111
  if bits_15_13 = 0b001 then
    let op := (instruction >>> 11) &&& 0x3
    let rd : Nat := (instruction >>> 8) &&& 0x7
    let imm8 : Nat := instruction &&& 0xFF
    (List.getD ["T_MOV_IMM", "T_CMP_IMM", "T_ADD_IMM", "T_SUB_IMM"] op "T_INDEX_ERROR",
      [("rd", (rd : Int)), ("immediate", (imm8 : Int))])
  else if bits_15_11 = 0b00011 then
    let is_imm := (instruction >>> 10) &&& 0x1
    let op := (instruction >>> 9) &&& 0x1
    let rn : Nat := (instruction >>> 6) &&& 0x7
    let rs : Nat := (instruction >>> 3) &&& 0x7
    let rd : Nat := instruction &&& 0x7
    if is_imm = 1 then
      (if op = 1 then "T_SUB_IMM" else "T_ADD_IMM",
        [("rd", (rd : Int)), ("rs", (rs : Int)), ("immediate", (rn : Int))])
    else
      (if op = 1 then "T_SUB" else "T_ADD",
        [("rd", (rd : Int)), ("rs", (rs : Int)), ("rn", (rn : Int))])
  else if bits_15_13 = 0b000 then
    let shift_type := (instruction >>> 11) &&& 0x3
    let offset : Nat := (instruction >>> 6) &&& 0x1F
    let rs : Nat := (instruction >>> 3) &&& 0x7
    let rd : Nat := instruction &&& 0x7
    ("T_" ++ List.getD ["LSL", "LSR", "ASR"] shift_type "INDEX_ERROR",
      [("rd", (rd : Int)), ("rs", (rs : Int)), ("offset", (offset : Int))])
  else if bits_15_10 = 0b010000 then
    let alu_op := (instruction >>> 6) &&& 0xF
    let rs : Nat := (instruction >>> 3) &&& 0x7
    let rd : Nat := instruction &&& 0x7
    ("T_" ++ List.getD
        ["AND", "EOR", "LSL", "LSR", "ASR", "ADC", "SBC", "ROR",
         "TST", "NEG", "CMP", "CMN", "ORR", "MUL", "BIC", "MVN"] alu_op "INDEX_ERROR",
      [("rd", (rd : Int)), ("rs", (rs : Int))])
  else if bits_15_10 = 0b010001 then
    let op := (instruction >>> 8) &&& 0x3
    let h1 := (instruction >>> 7) &&& 0x1
    let h2 := (instruction >>> 6) &&& 0x1
    let rs : Nat := (h2 <<< 3) ||| ((instruction >>> 3) &&& 0x7)
    let rd : Nat := (h1 <<< 3) ||| (instruction &&& 0x7)
    (List.getD ["T_ADD", "T_CMP", "T_MOV_HI", "T_BX"] op "T_INDEX_ERROR",
      [("rd", (rd : Int)), ("rs", (rs : Int))])
  else if bits_15_13 = 0b010 then
    let bits_12_11 := (instruction >>> 11) &&& 0b11
    if bits_12_11 = 0b00 then
      ("T_STR_REG", [("rd", (instruction &&& 0x7 : Nat)),
                     ("rb", ((instruction >>> 3) &&& 0x7 : Nat)),
                     ("rm", ((instruction >>> 6) &&& 0x7 : Nat))])
    else if bits_12_11 = 0b01 then
      ("T_STRH_REG", [("rd", (instruction &&& 0x7 : Nat)),
                      ("rb", ((instruction >>> 3) &&& 0x7 : Nat)),
                      ("rm", ((instruction >>> 6) &&& 0x7 : Nat))])
    else if bits_12_11 = 0b10 then
      ("T_STRB_REG", [("rd", (instruction &&& 0x7 : Nat)),
                      ("rb", ((instruction >>> 3) &&& 0x7 : Nat)),
                      ("rm", ((instruction >>> 6) &&& 0x7 : Nat))])
    else if bits_12_11 = 0b11 then
      ("T_LDR_PC", [("rd", ((instruction >>> 8) &&& 0x7 : Nat)),
                    ("offset", (instruction &&& 0xFF : Nat))])
    else ("T_NONE_RETURNED", [])
  else if bits_15_13 = 0b011 then
    let l_bit := (instruction >>> 11) &&& 0x1
    let offset : Nat := (instruction >>> 6) &&& 0x1F
    let rb : Nat := (instruction >>> 3) &&& 0x7
    let rd : Nat := instruction &&& 0x7
    if l_bit = 1 then
      ("T_LDR", [("rd", (rd : Int)), ("rb", (rb : Int)), ("offset", (offset : Int))])
    else
      ("T_STR", [("rd", (rd : Int)), ("rb", (rb : Int)), ("offset", (offset : Int))])
  else if instruction >>> 12 = 0b1101 ∧ (instruction >>> 8) &&& 0xF ≠ 0xF then
    let condition : Nat := (instruction >>> 8) &&& 0xF
    let offset0 : Nat := instruction &&& 0xFF
    let offset : Int :=
      if offset0 &&& 0x80 ≠ 0 then (offset0 : Int) - 0x100 else (offset0 : Int)
    ("T_BCC", [("condition", (condition : Int)), ("offset", offset * 2)])
  else if instruction >>> 11 = 0b11100 then
    let offset0 : Nat := instruction &&& 0x7FF
    let offset : Int :=
      if offset0 &&& 0x400 ≠ 0 then (offset0 : Int) - 0x800 else (offset0 : Int)
    ("T_B", [("offset", offset * 2)])
  else if instruction &&& 0xFF00 = 0xDF00 then
    ("T_SWI", [("immediate", (instruction &&& 0xFF : Nat))])
  else
    ("T_UNKNOWN", [("raw", (instruction : Int))])

/- ================================================================
   enhanced_executor.py
   ================================================================ -/

/-- `EnhancedARMExecutor` mutable state: 16 registers, the CPSR word, the
sparse byte memory (`dict.get(addr, 0)` becomes a total function with
default 0), program list of (instruction, mode-tag) pairs, current mode
string, optional cache simulator, and the execution-control fields. -/
structure ExecState where
  registers : List Nat
  cpsr : Nat
  memory : Nat → Nat
  program : List (Nat × String)
  mode : String
  cache : Option CacheSimulator
  running : Bool
  instruction_count : Nat
  max_instructions : Nat
  arm_count : Nat
  thumb_base : Nat

/-- `self.registers[i]` (decoder-produced indices are always < 16, where
the list read is defined). -/
def getReg (s : ExecState) (i : Nat) : Nat := s.registers.getD i 0

/-- `self.registers[i] = v`. -/
def setReg (s : ExecState) (i : Nat) (v : Nat) : ExecState :=
  { s with registers := s.registers.set i v }

/-- `EnhancedARMExecutor.__init__` (with a program, the loader-derived
fields and an optional cache filled in): 16 zero registers with SP
(R13) = 0x1000, cpsr 0, empty memory, ARM mode, running, zero count,
ceiling 1000. -/
def initState (program : List (Nat × String)) (arm_count thumb_base : Nat)
    (cache : Option CacheSimulator) : ExecState :=
  { registers := (List.replicate 16 0).set 13 0x1000
    cpsr := 0
    memory := fun _ => 0
    program := program
    mode := "ARM"
    cache := cache
    running := true
    instruction_count := 0
    max_instructions := 1000
    arm_count := arm_count
    thumb_base := thumb_base }

/-- `flag_positions = {'N': 31, 'Z': 30, 'C': 29, 'V': 28}`. -/
def flag_pos (flag : Char) : Option Nat :=
  if flag = 'N' then some 31
  else if flag = 'Z' then some 30
  else if flag = 'C' then some 29
  else if flag = 'V' then some 28
  else none

/-- `set_cpsr_flag`: `cpsr |= (1 << pos)` to set, `cpsr &= ~(1 << pos)`
to clear (cpsr is nonnegative, so the clear is `py_and_not`); unknown
flag chars are a no-op. -/
def set_cpsr_flag (cpsr : Nat) (flag : Char) (value : Bool) : Nat :=
  match flag_pos flag with
  | some pos => if value then cpsr ||| (1 <<< pos) else py_and_not cpsr (1 <<< pos)
  | none => cpsr

/-- `get_cpsr_flag`: `bool(cpsr & (1 << pos))`; `False` for unknown
flags. -/
def get_cpsr_flag (cpsr : Nat) (flag : Char) : Bool :=
  match flag_pos flag with
  | some pos => cpsr &&& (1 <<< pos) != 0
  | none => false

/-- `update_flags(result)`: Z := result == 0, then N := result < 0, on
the raw (unbounded, possibly negative) Python int result.  C and V are
not touched. -/
def update_flags (cpsr : Nat) (result : Int) : Nat :=
  set_cpsr_flag (set_cpsr_flag cpsr 'Z' (result = 0)) 'N' (result < 0)

/-- `read_memory_word`: little-endian composition of 4 bytes. -/
def read_memory_word (memory : Nat → Nat) (address : Nat) : Nat :=
  (List.range 4).foldl (fun word i => word ||| (memory (address + i) <<< (i * 8))) 0

/-- `write_memory_word`: store the 4 little-endian bytes, each masked
`& 0xFF`. -/
def write_memory_word (memory : Nat → Nat) (address value : Nat) : Nat → Nat :=
  (List.range 4).foldl
    (fun mem i => fun a => if a = address + i then (value >>> (i * 8)) &&& 0xFF else mem a)
    memory

/-- `execute_arm_mov`: rd := rm. -/
def execute_arm_mov (s : ExecState) (ops : Operands) : ExecState :=
  setReg s (opGetN ops "rd") (getReg s (opGetN ops "rm"))

/-- `execute_arm_mov_imm`: rd := immediate (stored unmasked). -/
def execute_arm_mov_imm (s : ExecState) (ops : Operands) : ExecState :=
  setReg s (opGetN ops "rd") (opGetN ops "immediate")

/-- `execute_arm_add`: rd := (rn + rm) & 0xFFFFFFFF. -/
def execute_arm_add (s : ExecState) (ops : Operands) : ExecState :=
  setReg s (opGetN ops "rd")
    (mask32 ((getReg s (opGetN ops "rn") : Int) + (getReg s (opGetN ops "rm") : Int)))

/-- `execute_arm_add_imm`: rd := (rn + immediate) & 0xFFFFFFFF. -/
def execute_arm_add_imm (s : ExecState) (ops : Operands) : ExecState :=
  setReg s (opGetN ops "rd")
    (mask32 ((getReg s (opGetN ops "rn") : Int) + opGet ops "immediate"))

/-- `execute_arm_sub`: rd := (rn - rm) & 0xFFFFFFFF (the Python
subtraction may be negative before the mask). -/
def execute_arm_sub (s : ExecState) (ops : Operands) : ExecState :=
  setReg s (opGetN ops "rd")
    (mask32 ((getReg s (opGetN ops "rn") : Int) - (getReg s (opGetN ops "rm") : Int)))

/-- `execute_arm_sub_imm`: rd := (rn - immediate) & 0xFFFFFFFF. -/
def execute_arm_sub_imm (s : ExecState) (ops : Operands) : ExecState :=
  setReg s (opGetN ops "rd")
    (mask32 ((getReg s (opGetN ops "rn") : Int) - opGet ops "immediate"))

/-- `execute_arm_mul`: rd := (rm * rs) & 0xFFFFFFFF. -/
def execute_arm_mul (s : ExecState) (ops : Operands) : ExecState :=
  setReg s (opGetN ops "rd")
    ((getReg s (opGetN ops "rm") * getReg s (opGetN ops "rs")) &&& 0xFFFFFFFF)

/-- `execute_arm_and`: rd := (rn & rm) & 0xFFFFFFFF. -/
def execute_arm_and (s : ExecState) (ops : Operands) : ExecState :=
  setReg s (opGetN ops "rd")
    ((getReg s (opGetN ops "rn") &&& getReg s (opGetN ops "rm")) &&& 0xFFFFFFFF)

/-- `execute_arm_orr`: rd := (rn | rm) & 0xFFFFFFFF. -/
def execute_arm_orr (s : ExecState) (ops : Operands) : ExecState :=
  setReg s (opGetN ops "rd")
    ((getReg s (opGetN ops "rn") ||| getReg s (opGetN ops "rm")) &&& 0xFFFFFFFF)

/-- `execute_arm_eor`: rd := (rn ^ rm) & 0xFFFFFFFF. -/
def execute_arm_eor (s : ExecState) (ops : Operands) : ExecState :=
  setReg s (opGetN ops "rd")
    ((getReg s (opGetN ops "rn") ^^^ getReg s (opGetN ops "rm")) &&& 0xFFFFFFFF)

/-- `execute_arm_bic`: rd := (rn & ~rm) & 0xFFFFFFFF. -/
def execute_arm_bic (s : ExecState) (ops : Operands) : ExecState :=
  setReg s (opGetN ops "rd")
    ((py_and_not (getReg s (opGetN ops "rn")) (getReg s (opGetN ops "rm"))) &&& 0xFFFFFFFF)

/-- `execute_arm_mvn`: rd := (~rm) & 0xFFFFFFFF; Python `~x` is
`-x - 1`. -/
def execute_arm_mvn (s : ExecState) (ops : Operands) : ExecState :=
  setReg s (opGetN ops "rd") (mask32 (-(getReg s (opGetN ops "rm") : Int) - 1))

/-- `execute_arm_cmp`: flags from rn - rm, no register written. -/
def execute_arm_cmp (s : ExecState) (ops : Operands) : ExecState :=
  { s with cpsr := (update_flags s.cpsr
      ((getReg s (opGetN ops "rn") : Int) - (getReg s (opGetN ops "rm") : Int))) }

/-- `execute_arm_cmp_imm`: flags from rn - immediate. -/
def execute_arm_cmp_imm (s : ExecState) (ops : Operands) : ExecState :=
  { s with cpsr := (update_flags s.cpsr
      ((getReg s (opGetN ops "rn") : Int) - opGet ops "immediate")) }

/-- `execute_arm_tst`: flags from rn & rm. -/
def execute_arm_tst (s : ExecState) (ops : Operands) : ExecState :=
  { s with cpsr := (update_flags s.cpsr
      ((getReg s (opGetN ops "rn") &&& getReg s (opGetN ops "rm") : Nat) : Int)) }

/-- `execute_arm_teq`: flags from rn ^ rm. -/
def execute_arm_teq (s : ExecState) (ops : Operands) : ExecState :=
  { s with cpsr := (update_flags s.cpsr
      ((getReg s (opGetN ops "rn") ^^^ getReg s (opGetN ops "rm") : Nat) : Int)) }

/-- `execute_arm_and_imm`: rd := (rn & immediate) & 0xFFFFFFFF (decoder
immediates are nonnegative 12-bit values). -/
def execute_arm_and_imm (s : ExecState) (ops : Operands) : ExecState :=
  setReg s (opGetN ops "rd")
    ((getReg s (opGetN ops "rn") &&& opGetN ops "immediate") &&& 0xFFFFFFFF)

/-- `execute_arm_orr_imm`: rd := (rn | immediate) & 0xFFFFFFFF. -/
def execute_arm_orr_imm (s : ExecState) (ops : Operands) : ExecState :=
  setReg s (opGetN ops "rd")
    ((getReg s (opGetN ops "rn") ||| opGetN ops "immediate") &&& 0xFFFFFFFF)

/-- `execute_arm_eor_imm`: rd := (rn ^ immediate) & 0xFFFFFFFF. -/
def execute_arm_eor_imm (s : ExecState) (ops : Operands) : ExecState :=
  setReg s (opGetN ops "rd")
    ((getReg s (opGetN ops "rn") ^^^ opGetN ops "immediate") &&& 0xFFFFFFFF)

/-- `execute_arm_bic_imm`: rd := (rn & ~immediate) & 0xFFFFFFFF. -/
def execute_arm_bic_imm (s : ExecState) (ops : Operands) : ExecState :=
  setReg s (opGetN ops "rd")
    ((py_and_not (getReg s (opGetN ops "rn")) (opGetN ops "immediate")) &&& 0xFFFFFFFF)

/-- `execute_arm_mvn_imm`: rd := (~immediate) & 0xFFFFFFFF. -/
def execute_arm_mvn_imm (s : ExecState) (ops : Operands) : ExecState :=
  setReg s (opGetN ops "rd") (mask32 (-(opGet ops "immediate") - 1))

/-- `execute_arm_tst_imm`: flags from rn & immediate. -/
def execute_arm_tst_imm (s : ExecState) (ops : Operands) : ExecState :=
  { s with cpsr := (update_flags s.cpsr
      ((getReg s (opGetN ops "rn") &&& opGetN ops "immediate" : Nat) : Int)) }

/-- `execute_arm_teq_imm`: flags from rn ^ immediate. -/
def execute_arm_teq_imm (s : ExecState) (ops : Operands) : ExecState :=
  { s with cpsr := (update_flags s.cpsr
      ((getReg s (opGetN ops "rn") ^^^ opGetN ops "immediate" : Nat) : Int)) }

/-- `execute_arm_str`: address = rn + offset; with a cache, probe the
instruction path at PC and the data path (write) at the address; then
write rd's word to memory. -/
def execute_arm_str (s : ExecState) (ops : Operands) : ExecState :=
  let address := getReg s (opGetN ops "rn") + opGetN ops "offset"
  let value := getReg s (opGetN ops "rd")
  let s :=
    match s.cache with
    | some c =>
      { s with cache := some ((c.access_instruction (getReg s 15)).access_data address true) }
    | none => s
  { s with memory := write_memory_word s.memory address value }

/-- `execute_arm_ldr`: address = rn + offset; cache probes as for STR
(data path read); rd := memory word at address. -/
def execute_arm_ldr (s : ExecState) (ops : Operands) : ExecState :=
  let address := getReg s (opGetN ops "rn") + opGetN ops "offset"
  let s :=
    match s.cache with
    | some c =>
      { s with cache := some ((c.access_instruction (getReg s 15)).access_data address false) }
    | none => s
  setReg s (opGetN ops "rd") (read_memory_word s.memory address)

/-- `execute_arm_branch`: re-sign-extend the (already sign-extended)
offset via the bit-23 test, shift left 2 (int multiply by 4), and set
PC := (old PC + 8 + branch_offset) & 0xFFFFFFFF. -/
def execute_arm_branch (s : ExecState) (ops : Operands) : ExecState :=
  let offset := opGet ops "offset"
  let offset := if int_bit offset 23 then or_ff000000 offset else offset
  let branch_offset := offset * 4
  let old_pc := getReg s 15
  setReg s 15 (mask32 ((old_pc : Int) + 8 + branch_offset))

/-- `execute_arm_branch_link`: LR := PC + 4 (no mask in the source!),
then branch exactly as `execute_arm_branch`. -/
def execute_arm_branch_link (s : ExecState) (ops : Operands) : ExecState :=
  let s := setReg s 14 (getReg s 15 + 4)
  let offset := opGet ops "offset"
  let offset := if int_bit offset 23 then or_ff000000 offset else offset
  let branch_offset := offset * 4
  let old_pc := getReg s 15
  setReg s 15 (mask32 ((old_pc : Int) + 8 + branch_offset))

/-- `execute_arm_bx`: bit 0 of the target selects Thumb (PC masked with
0xFFFFFFFE) vs ARM (PC masked with 0xFFFFFFFC); `switch_mode` always
receives a valid mode string here. -/
def execute_arm_bx (s : ExecState) (ops : Operands) : ExecState :=
  let target := getReg s (opGetN ops "rm")
  if target &&& 1 ≠ 0 then
    setReg { s with mode := "Thumb" } 15 (target &&& 0xFFFFFFFE)
  else
    setReg { s with mode := "ARM" } 15 (target &&& 0xFFFFFFFC)

/-- `execute_thumb_mov_imm`: rd := immediate. -/
def execute_thumb_mov_imm (s : ExecState) (ops : Operands) : ExecState :=
  setReg s (opGetN ops "rd") (opGetN ops "immediate")

/-- `execute_thumb_add_imm`: rd := (rd + immediate) & 0xFFFFFFFF. -/
def execute_thumb_add_imm (s : ExecState) (ops : Operands) : ExecState :=
  setReg s (opGetN ops "rd")
    (mask32 ((getReg s (opGetN ops "rd") : Int) + opGet ops "immediate"))

/-- `execute_thumb_sub_imm`: rd := (rd - immediate) & 0xFFFFFFFF. -/
def execute_thumb_sub_imm (s : ExecState) (ops : Operands) : ExecState :=
  setReg s (opGetN ops "rd")
    (mask32 ((getReg s (opGetN ops "rd") : Int) - opGet ops "immediate"))

/-- `execute_thumb_cmp_imm`: flags from rd - immediate. -/
def execute_thumb_cmp_imm (s : ExecState) (ops : Operands) : ExecState :=
  { s with cpsr := (update_flags s.cpsr
      ((getReg s (opGetN ops "rd") : Int) - opGet ops "immediate")) }

/-- `execute_thumb_cmp`: flags from rd - rs. -/
def execute_thumb_cmp (s : ExecState) (ops : Operands) : ExecState :=
  { s with cpsr := (update_flags s.cpsr
      ((getReg s (opGetN ops "rd") : Int) - (getReg s (opGetN ops "rs") : Int))) }

/-- `execute_thumb_add`: rd := (rd + rs) & 0xFFFFFFFF. -/
def execute_thumb_add (s : ExecState) (ops : Operands) : ExecState :=
  setReg s (opGetN ops "rd")
    (mask32 ((getReg s (opGetN ops "rd") : Int) + (getReg s (opGetN ops "rs") : Int)))

/-- `execute_thumb_sub`: rd := (rd - rs) & 0xFFFFFFFF. -/
def execute_thumb_sub (s : ExecState) (ops : Operands) : ExecState :=
  setReg s (opGetN ops "rd")
    (mask32 ((getReg s (opGetN ops "rd") : Int) - (getReg s (opGetN ops "rs") : Int)))

/-- `execute_thumb_mov_hi`: rd := rs. -/
def execute_thumb_mov_hi (s : ExecState) (ops : Operands) : ExecState :=
  setReg s (opGetN ops "rd") (getReg s (opGetN ops "rs"))

/-- `execute_thumb_ldr`: address = rb + (offset << 2).  Without a cache,
rd := memory word at address.  With a cache the source calls
`self.cache.access_data(address)` with the mandatory `is_write` argument
missing, so Python raises `TypeError` before any state is mutated; the
second component carries the raised message. -/
def execute_thumb_ldr (s : ExecState) (ops : Operands) : ExecState × Option String :=
  let address := getReg s (opGetN ops "rb") + (opGetN ops "offset" <<< 2)
  match s.cache with
  | some _ =>
    (s, some "TypeError: access_data missing 1 required positional argument: is_write")
  | none => (setReg s (opGetN ops "rd") (read_memory_word s.memory address), none)

/-- `execute_thumb_str`: address = rb + (offset << 2); with a cache the
data path is probed as a write; the memory word itself is NEVER written
(the handler computes `value` and prints, but performs no
`write_memory_word` call). -/
def execute_thumb_str (s : ExecState) (ops : Operands) : ExecState :=
  let address := getReg s (opGetN ops "rb") + (opGetN ops "offset" <<< 2)
  match s.cache with
  | some c => { s with cache := some (c.access_data address true) }
  | none => s

/-- `execute_thumb_branch`: PC := (PC + 4 + (offset << 1)) & 0xFFFFFFFF;
the decoded offset is an int (possibly negative), and Python `<< 1` on an
int is multiplication by 2. -/
def execute_thumb_branch (s : ExecState) (ops : Operands) : ExecState :=
  let offset := opGet ops "offset"
  let branch_offset := offset * 2
  let old_pc := getReg s 15
  setReg s 15 (mask32 ((old_pc : Int) + 4 + branch_offset))

/-- `check_condition`: the 16 ARM condition predicates over current
flags; unknown condition numbers give False (the dict `.get`
default). -/
def check_condition (s : ExecState) (condition : Nat) : Bool :=
  if condition = 0x0 then get_cpsr_flag s.cpsr 'Z'
  else if condition = 0x1 then !get_cpsr_flag s.cpsr 'Z'
  else if condition = 0x2 then get_cpsr_flag s.cpsr 'C'
  else if condition = 0x3 then !get_cpsr_flag s.cpsr 'C'
  else if condition = 0x4 then get_cpsr_flag s.cpsr 'N'
  else if condition = 0x5 then !get_cpsr_flag s.cpsr 'N'
  else if condition = 0x6 then get_cpsr_flag s.cpsr 'V'
  else if condition = 0x7 then !get_cpsr_flag s.cpsr 'V'
  else if condition = 0x8 then get_cpsr_flag s.cpsr 'C' && !get_cpsr_flag s.cpsr 'Z'
  else if condition = 0x9 then !get_cpsr_flag s.cpsr 'C' || get_cpsr_flag s.cpsr 'Z'
  else if condition = 0xA then get_cpsr_flag s.cpsr 'N' == get_cpsr_flag s.cpsr 'V'
  else if condition = 0xB then get_cpsr_flag s.cpsr 'N' != get_cpsr_flag s.cpsr 'V'
  else if condition = 0xC then
    !get_cpsr_flag s.cpsr 'Z' && (get_cpsr_flag s.cpsr 'N' == get_cpsr_flag s.cpsr 'V')
  else if condition = 0xD then
    get_cpsr_flag s.cpsr 'Z' || (get_cpsr_flag s.cpsr 'N' != get_cpsr_flag s.cpsr 'V')
  else if condition = 0xE then true
  else if condition = 0xF then false
  else false

/-- `execute_thumb_branch_conditional`: branch as `execute_thumb_branch`
iff the condition predicate holds. -/
def execute_thumb_branch_conditional (s : ExecState) (ops : Operands) : ExecState :=
  if check_condition s (opGetN ops "condition") then
    let offset := opGet ops "offset"
    let branch_offset := offset * 2
    let old_pc := getReg s 15
    setReg s 15 (mask32 ((old_pc : Int) + 4 + branch_offset))
  else s

/-- `execute_thumb_bx`: bit 0 set keeps Thumb (PC & 0xFFFFFFFE), clear
switches to ARM (PC & 0xFFFFFFFC). -/
def execute_thumb_bx (s : ExecState) (ops : Operands) : ExecState :=
  let target := getReg s (opGetN ops "rs")
  if target &&& 1 ≠ 0 then
    setReg { s with mode := "Thumb" } 15 (target &&& 0xFFFFFFFE)
  else
    setReg { s with mode := "ARM" } 15 (target &&& 0xFFFFFFFC)

/-- `execute_thumb_and`: rd := (rd & rs) & 0xFFFFFFFF. -/
def execute_thumb_and (s : ExecState) (ops : Operands) : ExecState :=
  setReg s (opGetN ops "rd")
    ((getReg s (opGetN ops "rd") &&& getReg s (opGetN ops "rs")) &&& 0xFFFFFFFF)

/-- `execute_thumb_eor`: rd := (rd ^ rs) & 0xFFFFFFFF. -/
def execute_thumb_eor (s : ExecState) (ops : Operands) : ExecState :=
  setReg s (opGetN ops "rd")
    ((getReg s (opGetN ops "rd") ^^^ getReg s (opGetN ops "rs")) &&& 0xFFFFFFFF)

/-- `execute_thumb_orr`: rd := (rd | rs) & 0xFFFFFFFF. -/
def execute_thumb_orr (s : ExecState) (ops : Operands) : ExecState :=
  setReg s (opGetN ops "rd")
    ((getReg s (opGetN ops "rd") ||| getReg s (opGetN ops "rs")) &&& 0xFFFFFFFF)

/-- `execute_thumb_mul`: rd := (rd * rs) & 0xFFFFFFFF. -/
def execute_thumb_mul (s : ExecState) (ops : Operands) : ExecState :=
  setReg s (opGetN ops "rd")
    ((getReg s (opGetN ops "rd") * getReg s (opGetN ops "rs")) &&& 0xFFFFFFFF)

/-- `execute_arm_instruction`: decode then dispatch on the mnemonic
string; unmatched mnemonics are a logged no-op. -/
def execute_arm_instruction (s : ExecState) (instruction : Nat) : ExecState :=
  let dec := decode_instruction instruction
  let instr_type := dec.1
  let operands := dec.2
  if instr_type = "MOV" then execute_arm_mov s operands
  else if instr_type = "MOV_IMM" then execute_arm_mov_imm s operands
  else if instr_type = "ADD" then execute_arm_add s operands
  else if instr_type = "ADD_IMM" then execute_arm_add_imm s operands
  else if instr_type = "SUB" then execute_arm_sub s operands
  else if instr_type = "SUB_IMM" then execute_arm_sub_imm s operands
  else if instr_type = "LDR" then execute_arm_ldr s operands
  else if instr_type = "STR" then execute_arm_str s operands
  else if instr_type = "CMP" then execute_arm_cmp s operands
  else if instr_type = "CMP_IMM" then execute_arm_cmp_imm s operands
  else if instr_type = "B" then execute_arm_branch s operands
  else if instr_type = "BL" then execute_arm_branch_link s operands
  else if instr_type = "MUL" then execute_arm_mul s operands
  else if instr_type = "AND" then execute_arm_and s operands
  else if instr_type = "ORR" then execute_arm_orr s operands
  else if instr_type = "BX" then execute_arm_bx s operands
  else if instr_type = "EOR" then execute_arm_eor s operands
  else if instr_type = "EOR_IMM" then execute_arm_eor_imm s operands
  else if instr_type = "AND_IMM" then execute_arm_and_imm s operands
  else if instr_type = "ORR_IMM" then execute_arm_orr_imm s operands
  else if instr_type = "BIC" then execute_arm_bic s operands
  else if instr_type = "BIC_IMM" then execute_arm_bic_imm s operands
  else if instr_type = "MVN" then execute_arm_mvn s operands
  else if instr_type = "MVN_IMM" then execute_arm_mvn_imm s operands
  else if instr_type = "TST" then execute_arm_tst s operands
  else if instr_type = "TST_IMM" then execute_arm_tst_imm s operands
  else if instr_type = "TEQ" then execute_arm_teq s operands
  else if instr_type = "TEQ_IMM" then execute_arm_teq_imm s operands
  else s

/-- `execute_thumb_instruction`: decode then dispatch; the `T_LDR`
handler is the only one that can raise (with a cache attached), so the
result carries the optional exception message. -/
def execute_thumb_instruction (s : ExecState) (instruction : Nat) :
    ExecState × Option String :=
  let dec := decode_thumb_instruction instruction
  let instr_type := dec.1
  let operands := dec.2
  if instr_type = "T_MOV_IMM" then (execute_thumb_mov_imm s operands, none)
  else if instr_type = "T_ADD_IMM" then (execute_thumb_add_imm s operands, none)
  else if instr_type = "T_SUB_IMM" then (execute_thumb_sub_imm s operands, none)
  else if instr_type = "T_CMP_IMM" then (execute_thumb_cmp_imm s operands, none)
  else if instr_type = "T_ADD" then (execute_thumb_add s operands, none)
  else if instr_type = "T_SUB" then (execute_thumb_sub s operands, none)
  else if instr_type = "T_MOV_HI" then (execute_thumb_mov_hi s operands, none)
  else if instr_type = "T_LDR" then execute_thumb_ldr s operands
  else if instr_type = "T_STR" then (execute_thumb_str s operands, none)
  else if instr_type = "T_B" then (execute_thumb_branch s operands, none)
  else if instr_type = "T_BCC" then (execute_thumb_branch_conditional s operands, none)
  else if instr_type = "T_BX" then (execute_thumb_bx s operands, none)
  else if instr_type = "T_CMP" then (execute_thumb_cmp s operands, none)
  else if instr_type = "T_AND" then (execute_thumb_and s operands, none)
  else if instr_type = "T_EOR" then (execute_thumb_eor s operands, none)
  else if instr_type = "T_ORR" then (execute_thumb_orr s operands, none)
  else if instr_type = "T_MUL" then (execute_thumb_mul s operands, none)
  else (s, none)

/-- Outcome of `execute_program`: either the loop finished (the flag
records whether it stopped via the out-of-bounds break, which prints
"PC beyond program bounds", as opposed to the while-condition turning
false), or an exception propagated out of a handler with the state as of
the raise. -/
inductive LoopResult where
  | done (s : ExecState) (outOfBounds : Bool)
  | raised (s : ExecState) (msg : String)

/-- Final state carried by a `LoopResult`. -/
def LoopResult.state : LoopResult → ExecState
  | .done s _ => s
  | .raised s _ => s

/-- Whether the post-loop "Maximum instruction limit reached" message is
printed: only a finished loop reports, and only when the count reached
the ceiling. -/
def LoopResult.limitReached : LoopResult → Bool
  | .done s _ => s.instruction_count ≥ s.max_instructions
  | .raised _ _ => false

/-- Outcome of one iteration of the `while` body of `execute_program`:
continue to the next iteration (instruction executed, counter bumped),
break out of bounds, or an exception propagating out of a handler. -/
inductive StepOutcome where
  | next (s : ExecState)
  | brk (s : ExecState)
  | raised (s : ExecState) (msg : String)

/-- One iteration of `execute_program`'s `while` body: compute the
program index from PC (ARM region `pc // 4`; Thumb region
`arm_count + (pc - thumb_base) // 2`, floor division on a possibly
negative int), break when it is out of bounds, switch mode to the
fetched instruction's tag (`switch_mode` raises on an invalid tag),
execute via the mode's dispatcher, re-advance PC by the instruction
width when the handler left it unchanged, and count the instruction. -/
def execute_program_step (s : ExecState) : StepOutcome :=
  let pc_val := getReg s 15
  let instr_index : Int :=
    if s.mode = "ARM" then (pc_val : Int) / 4
    else (s.arm_count : Int) + ((pc_val : Int) - (s.thumb_base : Int)).fdiv 2
  if instr_index < 0 ∨ (s.program.length : Int) ≤ instr_index then
    .brk s
  else
    let entry := s.program.getD instr_index.toNat (0, "ARM")
    let instruction := entry.1
    let instr_mode := entry.2
    if s.mode ≠ instr_mode ∧ instr_mode ≠ "ARM" ∧ instr_mode ≠ "Thumb" then
      .raised s ("Invalid mode: " ++ instr_mode)
    else
      let s := if s.mode ≠ instr_mode then { s with mode := instr_mode } else s
      if s.mode = "ARM" then
        let instruction := instruction &&& 0xFFFFFFFF
        let s1 := execute_arm_instruction s instruction
        let s1 := if getReg s1 15 = pc_val then setReg s1 15 (getReg s1 15 + 4) else s1
        .next { s1 with instruction_count := s1.instruction_count + 1 }
      else
        let instruction := instruction &&& 0xFFFF
        let r := execute_thumb_instruction s instruction
        match r.2 with
        | some msg => .raised r.1 msg
        | none =>
          let s1 := r.1
          let s1 := if getReg s1 15 = pc_val then setReg s1 15 (getReg s1 15 + 2) else s1
          .next { s1 with instruction_count := s1.instruction_count + 1 }

/-- The `while` loop of `execute_program`, fuel-indexed.  The fuel only
bounds the recursion; called with fuel at least
`max_instructions - instruction_count` the zero-fuel base case coincides
with the while-condition being false, because every `next` step
increases `instruction_count` by exactly 1. -/
def execute_program_loop : Nat → ExecState → LoopResult
  | 0, s => .done s false
  | fuel + 1, s =>
    if s.running = true ∧ s.instruction_count < s.max_instructions then
      match execute_program_step s with
      | .next s1 => execute_program_loop fuel s1
      | .brk s1 => .done s1 true
      | .raised s1 msg => .raised s1 msg
    else .done s false

/-- `execute_program`: run the loop with sufficient fuel. -/
def execute_program (s : ExecState) : LoopResult :=
  execute_program_loop (s.max_instructions - s.instruction_count) s

/-- The executor-level effect of calling `reset` on the attached cache
simulator (the reset method acts only on the cache object; it cannot
reach registers or memory). -/
def resetAttachedCache (s : ExecState) : ExecState :=
  { s with cache := s.cache.map CacheSimulator.reset }

/-- Whether the loop stopped via the out-of-bounds break (the
"PC beyond program bounds" message), as opposed to the while-condition
or an exception. -/
def LoopResult.outOfBoundsStop : LoopResult → Bool
  | .done _ b => b
  | .raised _ _ => false

/-- Register-file invariant: every slot holds a value in [0, 2^32). -/
def RegsOk (s : ExecState) : Prop := ∀ r ∈ s.registers, r < 2 ^ 32

/-- Memory invariant: every stored byte is in [0, 256) (all writes mask
with 0xFF, and unwritten addresses read 0). -/
def MemOk (s : ExecState) : Prop := ∀ a, s.memory a < 2 ^ 8

/-- The fixed set of mnemonics the ARM decoder can emit. -/
def armMnemonics : List String :=
  ["MUL", "BX",
   "MOV_IMM", "ADD_IMM", "SUB_IMM", "CMP_IMM", "AND_IMM", "EOR_IMM",
   "ORR_IMM", "BIC_IMM", "MVN_IMM", "TST_IMM", "TEQ_IMM",
   "MOV", "ADD", "SUB", "CMP", "AND", "EOR", "ORR", "BIC", "MVN", "TST", "TEQ",
   "LDR", "STR", "B", "BL", "UNKNOWN"]

/-- The fixed set of mnemonics the Thumb decoder can emit. -/
def thumbMnemonics : List String :=
  ["T_MOV_IMM", "T_CMP_IMM", "T_ADD_IMM", "T_SUB_IMM",
   "T_ADD", "T_SUB",
   "T_LSL", "T_LSR", "T_ASR",
   "T_AND", "T_EOR", "T_ADC", "T_SBC", "T_ROR", "T_TST", "T_NEG",
   "T_CMP", "T_CMN", "T_ORR", "T_MUL", "T_BIC", "T_MVN",
   "T_MOV_HI", "T_BX",
   "T_STR_REG", "T_STRH_REG", "T_STRB_REG", "T_LDR_PC",
   "T_LDR", "T_STR",
   "T_BCC", "T_B", "T_SWI", "T_UNKNOWN"]

/- ================================================================
   Supporting lemmas
   ================================================================ -/

theorem and_mask32_lt (x : Nat) : x &&& 0xFFFFFFFF < 2 ^ 32 :=
  Nat.and_lt_two_pow x (by norm_num)

theorem mask32_lt (x : Int) : mask32 x < 2 ^ 32 := by
  unfold mask32
  have h1 : 0 ≤ x % 4294967296 := Int.emod_nonneg x (by norm_num)
  have h2 : x % 4294967296 < 4294967296 := Int.emod_lt_of_pos x (by norm_num)
  omega

theorem testBit_py_and_not (x m q : Nat) :
    (py_and_not x m).testBit q = (x.testBit q && !(m.testBit q)) := by
  unfold py_and_not
  rw [Nat.testBit_xor, Nat.testBit_and]
  cases x.testBit q <;> cases m.testBit q <;> rfl

theorem get_cpsr_flag_eq_testBit (c p : Nat) :
    (c &&& (1 <<< p) != 0) = c.testBit p := by
  rw [Nat.one_shiftLeft, Nat.and_two_pow]
  cases h : c.testBit p
  · simp
  · simp [(Nat.two_pow_pos p).ne']

theorem testBit_set_flag_bit (x p : Nat) (v : Bool) (q : Nat) :
    (if v then x ||| (1 <<< p) else py_and_not x (1 <<< p)).testBit q =
      if p = q then v else x.testBit q := by
  cases v
  · rw [if_neg (by simp), testBit_py_and_not, Nat.one_shiftLeft, Nat.testBit_two_pow]
    by_cases h : p = q <;> simp [h]
  · rw [if_pos rfl, Nat.testBit_or, Nat.one_shiftLeft, Nat.testBit_two_pow]
    by_cases h : p = q <;> simp [h]

theorem flag_pos_N : flag_pos 'N' = some 31 := by decide
theorem flag_pos_Z : flag_pos 'Z' = some 30 := by decide
theorem flag_pos_C : flag_pos 'C' = some 29 := by decide
theorem flag_pos_V : flag_pos 'V' = some 28 := by decide

/-- Behaviour of `update_flags` on each of the four flags: Z and N are
functions of the raw int result, C and V are untouched. -/
theorem update_flags_spec (c : Nat) (r : Int) :
    get_cpsr_flag (update_flags c r) 'Z' = decide (r = 0) ∧
    get_cpsr_flag (update_flags c r) 'N' = decide (r < 0) ∧
    get_cpsr_flag (update_flags c r) 'C' = get_cpsr_flag c 'C' ∧
    get_cpsr_flag (update_flags c r) 'V' = get_cpsr_flag c 'V' := by
  unfold update_flags set_cpsr_flag get_cpsr_flag
  rw [flag_pos_N, flag_pos_Z, flag_pos_C, flag_pos_V]
  simp only [get_cpsr_flag_eq_testBit, testBit_set_flag_bit]
  norm_num

/-- Each compare/test handler leaves the register file untouched and
only rewrites the cpsr through `update_flags`. -/
theorem compare_handler_shape (s : ExecState) (r : Int) :
    ({ s with cpsr := update_flags s.cpsr r } : ExecState).registers = s.registers ∧
    ({ s with cpsr := update_flags s.cpsr r } : ExecState).memory = s.memory ∧
    get_cpsr_flag ({ s with cpsr := update_flags s.cpsr r } : ExecState).cpsr 'C'
      = get_cpsr_flag s.cpsr 'C' ∧
    get_cpsr_flag ({ s with cpsr := update_flags s.cpsr r } : ExecState).cpsr 'V'
      = get_cpsr_flag s.cpsr 'V' ∧
    get_cpsr_flag ({ s with cpsr := update_flags s.cpsr r } : ExecState).cpsr 'Z'
      = decide (r = 0) ∧
    get_cpsr_flag ({ s with cpsr := update_flags s.cpsr r } : ExecState).cpsr 'N'
      = decide (r < 0) := by
  obtain ⟨hz, hn, hc, hv⟩ := update_flags_spec s.cpsr r
  exact ⟨rfl, rfl, hc, hv, hz, hn⟩

/- ================================================================
   C1
   ================================================================ -/

/-- C1 (counterexample): the frozen claim states that after a compare
the N flag equals bit 31 of the result reduced mod 2^32.  Executing
`CMP R0, R1` with R0 = 0x80000000 and R1 = 0 computes the raw result
2^31, whose bit 31 mod 2^32 is set, yet the code sets N from the Python
comparison `result < 0`, which is false here. -/
theorem cmp_N_flag_counterexample :
    get_cpsr_flag
      (execute_arm_cmp
        { initState [] 0 0 none with registers := (List.replicate 16 0).set 0 0x80000000 }
        [("rn", 0), ("rm", 1)]).cpsr 'N' = false ∧
    Nat.testBit
      (mask32 ((getReg { initState [] 0 0 none with
          registers := (List.replicate 16 0).set 0 0x80000000 } 0 : Int)
        - (getReg { initState [] 0 0 none with
          registers := (List.replicate 16 0).set 0 0x80000000 } 1 : Int))) 31 = true := by
  constructor
  · decide
  · decide

/-- C1 (amended): every compare/test handler (ARM CMP, CMP_IMM, TST,
TST_IMM, TEQ, TEQ_IMM and Thumb T_CMP, T_CMP_IMM) writes no register,
leaves the C and V flags unchanged, and afterwards Z holds iff the raw
computed result is 0 and N holds iff the raw computed result — the
unbounded Python integer, before any reduction mod 2^32 — is negative
(so for CMP exactly when the first operand is smaller, and never for the
nonnegative TST/TEQ results). -/
theorem compare_handlers_flag_spec (s : ExecState) (ops : Operands) :
    ((execute_arm_cmp s ops).registers = s.registers ∧
      get_cpsr_flag (execute_arm_cmp s ops).cpsr 'C' = get_cpsr_flag s.cpsr 'C' ∧
      get_cpsr_flag (execute_arm_cmp s ops).cpsr 'V' = get_cpsr_flag s.cpsr 'V' ∧
      get_cpsr_flag (execute_arm_cmp s ops).cpsr 'Z'
        = decide ((getReg s (opGetN ops "rn") : Int) - (getReg s (opGetN ops "rm") : Int) = 0) ∧
      get_cpsr_flag (execute_arm_cmp s ops).cpsr 'N'
        = decide ((getReg s (opGetN ops "rn") : Int) - (getReg s (opGetN ops "rm") : Int) < 0)) ∧
    ((execute_arm_cmp_imm s ops).registers = s.registers ∧
      get_cpsr_flag (execute_arm_cmp_imm s ops).cpsr 'C' = get_cpsr_flag s.cpsr 'C' ∧
      get_cpsr_flag (execute_arm_cmp_imm s ops).cpsr 'V' = get_cpsr_flag s.cpsr 'V' ∧
      get_cpsr_flag (execute_arm_cmp_imm s ops).cpsr 'Z'
        = decide ((getReg s (opGetN ops "rn") : Int) - opGet ops "immediate" = 0) ∧
      get_cpsr_flag (execute_arm_cmp_imm s ops).cpsr 'N'
        = decide ((getReg s (opGetN ops "rn") : Int) - opGet ops "immediate" < 0)) ∧
    ((execute_arm_tst s ops).registers = s.registers ∧
      get_cpsr_flag (execute_arm_tst s ops).cpsr 'C' = get_cpsr_flag s.cpsr 'C' ∧
      get_cpsr_flag (execute_arm_tst s ops).cpsr 'V' = get_cpsr_flag s.cpsr 'V' ∧
      get_cpsr_flag (execute_arm_tst s ops).cpsr 'Z'
        = decide ((getReg s (opGetN ops "rn") &&& getReg s (opGetN ops "rm")) = 0) ∧
      get_cpsr_flag (execute_arm_tst s ops).cpsr 'N' = false) ∧
    ((execute_arm_tst_imm s ops).registers = s.registers ∧
      get_cpsr_flag (execute_arm_tst_imm s ops).cpsr 'C' = get_cpsr_flag s.cpsr 'C' ∧
      get_cpsr_flag (execute_arm_tst_imm s ops).cpsr 'V' = get_cpsr_flag s.cpsr 'V' ∧
      get_cpsr_flag (execute_arm_tst_imm s ops).cpsr 'Z'
        = decide ((getReg s (opGetN ops "rn") &&& opGetN ops "immediate") = 0) ∧
      get_cpsr_flag (execute_arm_tst_imm s ops).cpsr 'N' = false) ∧
    ((execute_arm_teq s ops).registers = s.registers ∧
      get_cpsr_flag (execute_arm_teq s ops).cpsr 'C' = get_cpsr_flag s.cpsr 'C' ∧
      get_cpsr_flag (execute_arm_teq s ops).cpsr 'V' = get_cpsr_flag s.cpsr 'V' ∧
      get_cpsr_flag (execute_arm_teq s ops).cpsr 'Z'
        = decide ((getReg s (opGetN ops "rn") ^^^ getReg s (opGetN ops "rm")) = 0) ∧
      get_cpsr_flag (execute_arm_teq s ops).cpsr 'N' = false) ∧
    ((execute_arm_teq_imm s ops).registers = s.registers ∧
      get_cpsr_flag (execute_arm_teq_imm s ops).cpsr 'C' = get_cpsr_flag s.cpsr 'C' ∧
      get_cpsr_flag (execute_arm_teq_imm s ops).cpsr 'V' = get_cpsr_flag s.cpsr 'V' ∧
      get_cpsr_flag (execute_arm_teq_imm s ops).cpsr 'Z'
        = decide ((getReg s (opGetN ops "rn") ^^^ opGetN ops "immediate") = 0) ∧
      get_cpsr_flag (execute_arm_teq_imm s ops).cpsr 'N' = false) ∧
    ((execute_thumb_cmp s ops).registers = s.registers ∧
      get_cpsr_flag (execute_thumb_cmp s ops).cpsr 'C' = get_cpsr_flag s.cpsr 'C' ∧
      get_cpsr_flag (execute_thumb_cmp s ops).cpsr 'V' = get_cpsr_flag s.cpsr 'V' ∧
      get_cpsr_flag (execute_thumb_cmp s ops).cpsr 'Z'
        = decide ((getReg s (opGetN ops "rd") : Int) - (getReg s (opGetN ops "rs") : Int) = 0) ∧
      get_cpsr_flag (execute_thumb_cmp s ops).cpsr 'N'
        = decide ((getReg s (opGetN ops "rd") : Int) - (getReg s (opGetN ops "rs") : Int) < 0)) ∧
    ((execute_thumb_cmp_imm s ops).registers = s.registers ∧
      get_cpsr_flag (execute_thumb_cmp_imm s ops).cpsr 'C' = get_cpsr_flag s.cpsr 'C' ∧
      get_cpsr_flag (execute_thumb_cmp_imm s ops).cpsr 'V' = get_cpsr_flag s.cpsr 'V' ∧
      get_cpsr_flag (execute_thumb_cmp_imm s ops).cpsr 'Z'
        = decide ((getReg s (opGetN ops "rd") : Int) - opGet ops "immediate" = 0) ∧
      get_cpsr_flag (execute_thumb_cmp_imm s ops).cpsr 'N'
        = decide ((getReg s (opGetN ops "rd") : Int) - opGet ops "immediate" < 0)) := by
  refine ⟨?_, ?_, ?_, ?_, ?_, ?_, ?_, ?_⟩
  · obtain ⟨h1, _, h3, h4, h5, h6⟩ := compare_handler_shape s
      ((getReg s (opGetN ops "rn") : Int) - (getReg s (opGetN ops "rm") : Int))
    exact ⟨h1, h3, h4, h5, h6⟩
  · obtain ⟨h1, _, h3, h4, h5, h6⟩ := compare_handler_shape s
      ((getReg s (opGetN ops "rn") : Int) - opGet ops "immediate")
    exact ⟨h1, h3, h4, h5, h6⟩
  · obtain ⟨h1, _, h3, h4, h5, h6⟩ := compare_handler_shape s
      ((getReg s (opGetN ops "rn") &&& getReg s (opGetN ops "rm") : Nat) : Int)
    refine ⟨h1, h3, h4,
      h5.trans (by rw [decide_eq_decide]; exact Nat.cast_eq_zero),
      h6.trans (decide_eq_false (Int.not_lt.mpr (Int.natCast_nonneg _)))⟩
  · obtain ⟨h1, _, h3, h4, h5, h6⟩ := compare_handler_shape s
      ((getReg s (opGetN ops "rn") &&& opGetN ops "immediate" : Nat) : Int)
    refine ⟨h1, h3, h4,
      h5.trans (by rw [decide_eq_decide]; exact Nat.cast_eq_zero),
      h6.trans (decide_eq_false (Int.not_lt.mpr (Int.natCast_nonneg _)))⟩
  · obtain ⟨h1, _, h3, h4, h5, h6⟩ := compare_handler_shape s
      ((getReg s (opGetN ops "rn") ^^^ getReg s (opGetN ops "rm") : Nat) : Int)
    refine ⟨h1, h3, h4,
      h5.trans (by rw [decide_eq_decide]; exact Nat.cast_eq_zero),
      h6.trans (decide_eq_false (Int.not_lt.mpr (Int.natCast_nonneg _)))⟩
  · obtain ⟨h1, _, h3, h4, h5, h6⟩ := compare_handler_shape s
      ((getReg s (opGetN ops "rn") ^^^ opGetN ops "immediate" : Nat) : Int)
    refine ⟨h1, h3, h4,
      h5.trans (by rw [decide_eq_decide]; exact Nat.cast_eq_zero),
      h6.trans (decide_eq_false (Int.not_lt.mpr (Int.natCast_nonneg _)))⟩
  · obtain ⟨h1, _, h3, h4, h5, h6⟩ := compare_handler_shape s
      ((getReg s (opGetN ops "rd") : Int) - (getReg s (opGetN ops "rs") : Int))
    exact ⟨h1, h3, h4, h5, h6⟩
  · obtain ⟨h1, _, h3, h4, h5, h6⟩ := compare_handler_shape s
      ((getReg s (opGetN ops "rd") : Int) - opGet ops "immediate")
    exact ⟨h1, h3, h4, h5, h6⟩

/- ================================================================
   Cache lemmas, C2 and C5
   ================================================================ -/

theorem getD_set_self (l : List α) (i : Nat) (x d : α) (h : i < l.length) :
    (l.set i x).getD i d = x := by
  rw [List.getD_eq_getElem?_getD, List.getElem?_set_self (by simpa), Option.getD_some]

theorem getD_replicate_lt (n : Nat) (x d : α) (i : Nat) (h : i < n) :
    (List.replicate n x).getD i d = x := by
  rw [List.getD_eq_getElem?_getD, List.getElem?_replicate_of_lt h, Option.getD_some]

theorem get_index_lt (c : BaseCache) (a : Nat) (hn : 0 < c.num_blocks) :
    (c.get_index_and_tag a).1 < c.num_blocks := by
  unfold BaseCache.get_index_and_tag
  by_cases h : c.mapping = "direct"
  · simpa [h] using Nat.mod_lt _ hn
  · simpa [h] using hn

theorem get_index_and_tag_counters (c : BaseCache) (x1 x2 x3 x4 : Nat) (a : Nat) :
    (BaseCache.mk c.size c.block_size c.mapping c.num_blocks c.lines x1 x2 x3 x4).get_index_and_tag a
      = c.get_index_and_tag a := rfl

/-- Unfolding of `BaseCache.access` on the hit path. -/
theorem access_hit (c : BaseCache) (a : Nat) (w : Bool)
    (hv : (c.lines.getD (c.get_index_and_tag a).1 ⟨false, none, false⟩).valid = true)
    (ht : (c.lines.getD (c.get_index_and_tag a).1 ⟨false, none, false⟩).tag
      = some (c.get_index_and_tag a).2) :
    c.access a w =
      (true,
        { c with
          accesses := c.accesses + 1
          hits := c.hits + 1
          lines :=
            if w then
              c.lines.set (c.get_index_and_tag a).1
                { c.lines.getD (c.get_index_and_tag a).1 ⟨false, none, false⟩ with dirty := true }
            else c.lines }) := by
  simp only [BaseCache.access]
  rw [if_pos ⟨hv, ht⟩]
  rfl

/-- Unfolding of `BaseCache.access` on the miss path: one miss, a
write-back exactly when the evicted line was valid and dirty, and the
new line installed with the write flag as dirty bit. -/
theorem access_miss (c : BaseCache) (a : Nat) (w : Bool)
    (hm : ¬((c.lines.getD (c.get_index_and_tag a).1 ⟨false, none, false⟩).valid = true ∧
        (c.lines.getD (c.get_index_and_tag a).1 ⟨false, none, false⟩).tag
          = some (c.get_index_and_tag a).2)) :
    c.access a w =
      (false,
        { c with
          accesses := c.accesses + 1
          misses := c.misses + 1
          write_backs := c.write_backs +
            (if (c.lines.getD (c.get_index_and_tag a).1 ⟨false, none, false⟩).valid = true ∧
                (c.lines.getD (c.get_index_and_tag a).1 ⟨false, none, false⟩).dirty = true
             then 1 else 0)
          lines := c.lines.set (c.get_index_and_tag a).1
            ⟨true, some (c.get_index_and_tag a).2, w⟩ }) := by
  simp only [BaseCache.access, get_index_and_tag_counters]
  rw [if_neg hm]
  split
  · rfl
  · rfl

/-- C2 (counterexample): the frozen claim states that after
`CacheSimulator.reset` every cache line is invalid.  On a concrete
hierarchy, one data access installs a valid line in L1D; after `reset`
that line is still valid, because `reset` only clears counters
(`reset_stats`) and the stats map and never touches a `lines` array. -/
theorem cache_reset_leaves_line_valid_counterexample :
    ((((CacheSimulator.make (BaseCache.make 8 8 "direct") (BaseCache.make 8 8 "direct")
          (BaseCache.make 64 32 "direct")).access_data 0 true).reset).L1D.lines.getD 0
        ⟨false, none, false⟩).valid = true := by
  decide

/-- C2 (amended): after `CacheSimulator.reset`, in every one of the
three levels all statistics counters (accesses, hits, misses,
write-backs) and the aggregated stats map are zero, while the cache
lines of every level are left exactly as they were (valid lines remain
valid); resetting the attached cache touches neither registers nor
memory of the executor. -/
theorem cache_reset_spec (cs : CacheSimulator) (s : ExecState) :
    (cs.reset.L1I.accesses = 0 ∧ cs.reset.L1I.hits = 0 ∧
      cs.reset.L1I.misses = 0 ∧ cs.reset.L1I.write_backs = 0) ∧
    (cs.reset.L1D.accesses = 0 ∧ cs.reset.L1D.hits = 0 ∧
      cs.reset.L1D.misses = 0 ∧ cs.reset.L1D.write_backs = 0) ∧
    (cs.reset.L2.accesses = 0 ∧ cs.reset.L2.hits = 0 ∧
      cs.reset.L2.misses = 0 ∧ cs.reset.L2.write_backs = 0) ∧
    (∀ k, cs.reset.stats k = 0) ∧
    (cs.reset.L1I.lines = cs.L1I.lines ∧ cs.reset.L1D.lines = cs.L1D.lines ∧
      cs.reset.L2.lines = cs.L2.lines) ∧
    ((resetAttachedCache s).registers = s.registers ∧
      (resetAttachedCache s).memory = s.memory) :=
  ⟨⟨rfl, rfl, rfl, rfl⟩, ⟨rfl, rfl, rfl, rfl⟩, ⟨rfl, rfl, rfl, rfl⟩,
    fun _ => rfl, ⟨rfl, rfl, rfl⟩, ⟨rfl, rfl⟩⟩

/-- C5: on a single cache level (any mapping string, so both the
direct-mapped and the fully-associative-single-set policies):
(A) the first access to any address on a fresh cache is a miss that
counts one miss, no hit and no write-back, and installs
{valid, tag, dirty = is_write}; (B) an immediately following second
access to the same address is a hit; (C) from any well-formed state, an
access whose index holds a valid line with a different tag misses,
counts exactly one write-back iff that line is dirty and zero
otherwise, and replaces it with {valid, tag, dirty = is_write}. -/
theorem cache_first_miss_second_hit_evict (size block_size : Nat) (mapping : String)
    (hb : 0 < block_size) (hn : 0 < size / block_size) :
    (∀ a w, ((BaseCache.make size block_size mapping).access a w).1 = false
      ∧ ((BaseCache.make size block_size mapping).access a w).2.misses = 1
      ∧ ((BaseCache.make size block_size mapping).access a w).2.hits = 0
      ∧ ((BaseCache.make size block_size mapping).access a w).2.write_backs = 0
      ∧ ((BaseCache.make size block_size mapping).access a w).2.lines.getD
          ((BaseCache.make size block_size mapping).get_index_and_tag a).1 ⟨false, none, false⟩
        = ⟨true, some ((BaseCache.make size block_size mapping).get_index_and_tag a).2, w⟩) ∧
    (∀ a w1 w2, ((((BaseCache.make size block_size mapping).access a w1).2).access a w2).1
      = true) ∧
    (∀ (c : BaseCache) (b : Nat) (w : Bool),
      0 < c.num_blocks → c.lines.length = c.num_blocks →
      (c.lines.getD (c.get_index_and_tag b).1 ⟨false, none, false⟩).valid = true →
      (c.lines.getD (c.get_index_and_tag b).1 ⟨false, none, false⟩).tag
        ≠ some (c.get_index_and_tag b).2 →
      (c.access b w).1 = false
      ∧ (c.access b w).2.misses = c.misses + 1
      ∧ (c.access b w).2.write_backs = c.write_backs +
          (if (c.lines.getD (c.get_index_and_tag b).1 ⟨false, none, false⟩).dirty = true
           then 1 else 0)
      ∧ (c.access b w).2.lines.getD (c.get_index_and_tag b).1 ⟨false, none, false⟩
        = ⟨true, some (c.get_index_and_tag b).2, w⟩) := by
  have hlen : (BaseCache.make size block_size mapping).lines.length
      = (BaseCache.make size block_size mapping).num_blocks := by
    simp [BaseCache.make]
  have hidx : ∀ a : Nat, ((BaseCache.make size block_size mapping).get_index_and_tag a).1
      < (BaseCache.make size block_size mapping).lines.length := by
    intro a
    rw [hlen]
    exact get_index_lt (BaseCache.make size block_size mapping) a hn
  have hfresh : ∀ a : Nat,
      (BaseCache.make size block_size mapping).lines.getD
        ((BaseCache.make size block_size mapping).get_index_and_tag a).1 ⟨false, none, false⟩
      = (⟨false, none, false⟩ : CacheLine) := by
    intro a
    exact getD_replicate_lt _ _ _ _
      (get_index_lt (BaseCache.make size block_size mapping) a hn)
  refine ⟨?_, ?_, ?_⟩
  · intro a w
    rw [access_miss _ a w (by rw [hfresh a]; simp)]
    refine ⟨rfl, rfl, rfl, ?_, ?_⟩
    · rw [hfresh a]; rfl
    · exact getD_set_self _ _ _ _ (hidx a)
  · intro a w1 w2
    rw [access_miss _ a w1 (by rw [hfresh a]; simp)]
    rw [access_hit _ a w2 ?hv ?ht]
    case hv =>
      show (((BaseCache.make size block_size mapping).lines.set
          ((BaseCache.make size block_size mapping).get_index_and_tag a).1
          ⟨true, some ((BaseCache.make size block_size mapping).get_index_and_tag a).2, w1⟩).getD
          ((BaseCache.make size block_size mapping).get_index_and_tag a).1
          ⟨false, none, false⟩).valid = true
      rw [getD_set_self _ _ _ _ (hidx a)]
    case ht =>
      show (((BaseCache.make size block_size mapping).lines.set
          ((BaseCache.make size block_size mapping).get_index_and_tag a).1
          ⟨true, some ((BaseCache.make size block_size mapping).get_index_and_tag a).2, w1⟩).getD
          ((BaseCache.make size block_size mapping).get_index_and_tag a).1
          ⟨false, none, false⟩).tag
        = some ((BaseCache.make size block_size mapping).get_index_and_tag a).2
      rw [getD_set_self _ _ _ _ (hidx a)]
  · intro c b w hcn hclen hv ht
    rw [access_miss c b w (by intro h; exact ht h.2)]
    refine ⟨rfl, rfl, ?_, ?_⟩
    · rw [hv]; simp
    · exact getD_set_self _ _ _ _ (by rw [hclen]; exact get_index_lt c b hcn)

/- ================================================================
   Memory lemmas and C9
   ================================================================ -/

theorem lor_shiftLeft_eq_add {x y n : Nat} (h : x < 2 ^ n) :
    x ||| (y <<< n) = y <<< n + x := by
  apply Nat.eq_of_testBit_eq
  intro q
  rw [Nat.testBit_or, Nat.testBit_shiftLeft]
  rcases Nat.lt_or_ge q n with hq | hq
  · have hd : (decide (n ≤ q)) = false := by simp; omega
    rw [hd, Bool.false_and, Bool.or_false, Nat.shiftLeft_eq,
      Nat.testBit_to_div_mod, Nat.testBit_to_div_mod, decide_eq_decide]
    have e1 : y * 2 ^ n + x = 2 ^ q * (y * 2 ^ (n - q)) + x := by
      rw [show (2:Nat) ^ n = 2 ^ q * 2 ^ (n - q) from by rw [← pow_add]; congr 1; omega]
      ring_nf
    have e2 : (y * 2 ^ n + x) / 2 ^ q = y * 2 ^ (n - q) + x / 2 ^ q := by
      rw [e1, Nat.mul_add_div (Nat.two_pow_pos q)]
    rw [e2]
    have e3 : y * 2 ^ (n - q) = 2 * (y * 2 ^ (n - q - 1)) := by
      rw [show (2:Nat) ^ (n - q) = 2 * 2 ^ (n - q - 1) from by
        rw [← pow_succ']; congr 1; omega]
      ring
    rw [e3]
    generalize y * 2 ^ (n - q - 1) = c
    omega
  · have hd : (decide (n ≤ q)) = true := by simp [hq]
    have hx : x.testBit q = false :=
      Nat.testBit_lt_two_pow (lt_of_lt_of_le h (Nat.pow_le_pow_right (by norm_num) hq))
    rw [hd, Bool.true_and, hx, Bool.false_or, Nat.shiftLeft_eq,
      Nat.testBit_to_div_mod, Nat.testBit_to_div_mod, decide_eq_decide]
    have e1 : (y * 2 ^ n + x) / 2 ^ q = y / 2 ^ (q - n) := by
      rw [show (2:Nat) ^ q = 2 ^ n * 2 ^ (q - n) from by rw [← pow_add]; congr 1; omega]
      rw [← Nat.div_div_eq_div_mul]
      congr 1
      rw [Nat.mul_comm y, Nat.mul_add_div (Nat.two_pow_pos n),
        Nat.div_eq_of_lt h, Nat.add_zero]
    rw [e1]

theorem and_255_eq_mod (x : Nat) : x &&& 255 = x % 256 := by
  have h := Nat.and_pow_two_sub_one_eq_mod x 8
  norm_num at h
  exact h

theorem byte_lt_256 (x : Nat) : x &&& 255 < 256 := by
  have h := Nat.and_lt_two_pow x (show (255:Nat) < 2 ^ 8 by norm_num)
  norm_num at h
  exact h

/-- `read_memory_word` as plain arithmetic, for byte-bounded memory. -/
theorem read_memory_word_eq (m : Nat → Nat) (a : Nat)
    (h0 : m a < 256) (h1 : m (a + 1) < 256) (h2 : m (a + 2) < 256) :
    read_memory_word m a = m a + m (a + 1) * 2 ^ 8 + m (a + 2) * 2 ^ 16 + m (a + 3) * 2 ^ 24 := by
  unfold read_memory_word
  rw [show List.range 4 = [0, 1, 2, 3] from rfl]
  simp only [List.foldl]
  rw [Nat.zero_or]
  norm_num
  have s1 : m a ||| (m (a + 1) <<< 8) = m (a + 1) <<< 8 + m a :=
    lor_shiftLeft_eq_add (by norm_num; omega)
  rw [s1]
  have b1 : m (a + 1) <<< 8 + m a < 2 ^ 16 := by
    rw [Nat.shiftLeft_eq]
    norm_num
    omega
  have s2 : m (a + 1) <<< 8 + m a ||| (m (a + 2) <<< 16) =
      m (a + 2) <<< 16 + (m (a + 1) <<< 8 + m a) :=
    lor_shiftLeft_eq_add b1
  rw [s2]
  have b2 : m (a + 2) <<< 16 + (m (a + 1) <<< 8 + m a) < 2 ^ 24 := by
    rw [Nat.shiftLeft_eq, Nat.shiftLeft_eq]
    norm_num
    omega
  have s3 : m (a + 2) <<< 16 + (m (a + 1) <<< 8 + m a) ||| (m (a + 3) <<< 24) =
      m (a + 3) <<< 24 + (m (a + 2) <<< 16 + (m (a + 1) <<< 8 + m a)) :=
    lor_shiftLeft_eq_add b2
  rw [s3]
  simp only [Nat.shiftLeft_eq]
  norm_num
  ring

/-- The four bytes written by `write_memory_word`, and non-interference
with every other address. -/
theorem write_memory_word_bytes (m : Nat → Nat) (a v : Nat) :
    write_memory_word m a v a = v &&& 255 ∧
    write_memory_word m a v (a + 1) = (v >>> 8) &&& 255 ∧
    write_memory_word m a v (a + 2) = (v >>> 16) &&& 255 ∧
    write_memory_word m a v (a + 3) = (v >>> 24) &&& 255 ∧
    (∀ b, b ≠ a → b ≠ a + 1 → b ≠ a + 2 → b ≠ a + 3 → write_memory_word m a v b = m b) := by
  unfold write_memory_word
  rw [show List.range 4 = [0, 1, 2, 3] from rfl]
  simp only [List.foldl]
  refine ⟨?_, ?_, ?_, ?_, ?_⟩
  · rw [if_neg (by omega), if_neg (by omega), if_neg (by omega)]
    simp
  · rw [if_neg (by omega), if_neg (by omega)]
    simp
  · rw [if_neg (by omega)]
    simp
  · simp
  · intro b hb0 hb1 hb2 hb3
    rw [if_neg hb3, if_neg hb2, if_neg hb1, if_neg (by omega)]

/-- C9: memory word round-trip.  Writing v (< 2^32) at a and reading a
word back at a returns exactly v; the word is stored little-endian as
the four bytes `(v >>> 8i) & 0xFF` at a..a+3; every other address is
unchanged; and in the initial state every (never-written) address reads
byte 0. -/
theorem memory_word_roundtrip (m : Nat → Nat) (a v : Nat) (hv : v < 2 ^ 32) :
    read_memory_word (write_memory_word m a v) a = v ∧
    write_memory_word m a v a = v &&& 0xFF ∧
    write_memory_word m a v (a + 1) = (v >>> 8) &&& 0xFF ∧
    write_memory_word m a v (a + 2) = (v >>> 16) &&& 0xFF ∧
    write_memory_word m a v (a + 3) = (v >>> 24) &&& 0xFF ∧
    (∀ b, b ≠ a → b ≠ a + 1 → b ≠ a + 2 → b ≠ a + 3 →
      write_memory_word m a v b = m b) ∧
    (initState [] 0 0 none).memory a = 0 := by
  obtain ⟨w0, w1, w2, w3, wother⟩ := write_memory_word_bytes m a v
  refine ⟨?_, w0, w1, w2, w3, wother, rfl⟩
  rw [read_memory_word_eq _ _
    (by rw [w0]; exact byte_lt_256 v)
    (by rw [w1]; exact byte_lt_256 _)
    (by rw [w2]; exact byte_lt_256 _)]
  rw [w0, w1, w2, w3]
  rw [and_255_eq_mod, and_255_eq_mod, and_255_eq_mod, and_255_eq_mod,
    Nat.shiftRight_eq_div_pow, Nat.shiftRight_eq_div_pow, Nat.shiftRight_eq_div_pow]
  norm_num
  omega

/-- C9 (witness): the round-trip theorem applied at address 100 and
value 0xDEADBEEF. -/
theorem memory_word_roundtrip_witness :
    read_memory_word (write_memory_word (fun _ => 0) 100 0xDEADBEEF) 100 = 0xDEADBEEF ∧
    write_memory_word (fun _ => 0) 100 0xDEADBEEF 101 = 0xBE := by
  obtain ⟨h1, _, h2, _⟩ := memory_word_roundtrip (fun _ => 0) 100 0xDEADBEEF (by norm_num)
  refine ⟨h1, ?_⟩
  rw [show (101 : Nat) = 100 + 1 from rfl, h2]
  decide

/- ================================================================
   Decoder totality, C8
   ================================================================ -/

theorem getD_mem_of_lt (l : List α) (idx : Nat) (d : α) (h : idx < l.length) :
    l.getD idx d ∈ l := by
  rw [List.getD_eq_getElem?_getD, List.getElem?_eq_getElem h, Option.getD_some]
  exact List.getElem_mem h

theorem mem_of_subset_getD (T : List String) (idx : Nat) (d : String) (L : List String)
    (hlt : idx < T.length) (hsub : ∀ x ∈ T, x ∈ L) : T.getD idx d ∈ L :=
  hsub _ (getD_mem_of_lt T idx d hlt)

theorem mem_of_subset_getD_prefixed (T : List String) (idx : Nat) (d : String)
    (L : List String) (hlt : idx < T.length) (hsub : ∀ x ∈ T, "T_" ++ x ∈ L) :
    ("T_" ++ T.getD idx d) ∈ L :=
  hsub _ (getD_mem_of_lt T idx d hlt)

theorem and_31_eq_mod (x : Nat) : x &&& 31 = x % 32 := by
  have h := Nat.and_pow_two_sub_one_eq_mod x 5
  norm_num at h
  exact h

theorem and_3_eq_mod (x : Nat) : x &&& 3 = x % 4 := by
  have h := Nat.and_pow_two_sub_one_eq_mod x 2
  norm_num at h
  exact h

theorem and_7_eq_mod (x : Nat) : x &&& 7 = x % 8 := by
  have h := Nat.and_pow_two_sub_one_eq_mod x 3
  norm_num at h
  exact h

theorem shiftRight_13_eq (i : Nat) : i >>> 13 = (i >>> 11) / 4 := by
  rw [Nat.shiftRight_eq_div_pow, Nat.shiftRight_eq_div_pow, Nat.div_div_eq_div_mul]

/-- Membership of the first component of an if-then-else of decode
results follows from membership in both branches. -/
theorem fst_ite_mem {c : Prop} [Decidable c] {α : Type} (a b : String × α)
    (L : List String) (ha : a.1 ∈ L) (hb : b.1 ∈ L) : (if c then a else b).1 ∈ L := by
  split
  · exact ha
  · exact hb

/-- Conditional variant of `fst_ite_mem`, keeping the branch guard. -/
theorem fst_ite_mem_cond {c : Prop} [Decidable c] {α : Type} (a b : String × α)
    (L : List String) (ha : c → a.1 ∈ L) (hb : ¬c → b.1 ∈ L) :
    (if c then a else b).1 ∈ L := by
  split
  case isTrue h => exact ha h
  case isFalse h => exact hb h

/-- Membership for an if-then-else of plain mnemonic strings. -/
theorem ite_mem {c : Prop} [Decidable c] (a b : String) (L : List String)
    (ha : a ∈ L) (hb : b ∈ L) : (if c then a else b) ∈ L := by
  split
  · exact ha
  · exact hb

/-- Every ARM decode result carries a mnemonic from the fixed set. -/
theorem decode_arm_mnemonic_mem (i : Nat) : (decode_instruction i).1 ∈ armMnemonics := by
  simp only [decode_instruction]
  repeat (first | exact of_decide_eq_true rfl | apply fst_ite_mem | apply ite_mem)

/-- Every Thumb decode result carries a mnemonic from the fixed set; in
particular the sentinel strings marking a Python `IndexError`
(`T_INDEX_ERROR`) or the impossible empty fall-through
(`T_NONE_RETURNED`) are never produced: the Format 1 shift table can
only be reached with index bits 12:11 < 3 because the value 3 is caught
earlier by the Format 2 prefix check, and the Format 6/7/8 two-bit
selector always matches one of its four cases. -/
theorem decode_thumb_mnemonic_mem (i : Nat) :
    (decode_thumb_instruction i).1 ∈ thumbMnemonics := by
  have e31 : (i >>> 11) &&& 31 = (i >>> 11) % 32 := and_31_eq_mod _
  have e3 : (i >>> 11) &&& 3 = (i >>> 11) % 4 := and_3_eq_mod _
  have e7 : (i >>> 13) &&& 7 = (i >>> 11) / 4 % 8 := by
    rw [shiftRight_13_eq, and_7_eq_mod]
  simp only [decode_thumb_instruction]
  refine fst_ite_mem_cond _ _ _ (fun _ => ?_) (fun _ => ?_)
  · exact mem_of_subset_getD _ _ _ _ (Nat.lt_succ_of_le Nat.and_le_right) (by decide)
  · refine fst_ite_mem_cond _ _ _ (fun _ => ?_) (fun hc2 => ?_)
    · repeat (first | exact of_decide_eq_true rfl | apply fst_ite_mem | apply ite_mem)
    · refine fst_ite_mem_cond _ _ _ (fun hc3 => ?_) (fun _ => ?_)
      · refine mem_of_subset_getD_prefixed _ _ _ _ ?_ (by decide)
        rw [e3]
        rw [e31] at hc2
        rw [e7] at hc3
        show i >>> 11 % 4 < 3
        omega
      · refine fst_ite_mem_cond _ _ _ (fun _ => ?_) (fun _ => ?_)
        · exact mem_of_subset_getD_prefixed _ _ _ _
            (Nat.lt_succ_of_le Nat.and_le_right) (by decide)
        · refine fst_ite_mem_cond _ _ _ (fun _ => ?_) (fun _ => ?_)
          · exact mem_of_subset_getD _ _ _ _
              (Nat.lt_succ_of_le Nat.and_le_right) (by decide)
          · refine fst_ite_mem_cond _ _ _ (fun _ => ?_) (fun _ => ?_)
            · refine fst_ite_mem_cond _ _ _ (fun _ => ?_) (fun h0 => ?_)
              · exact of_decide_eq_true rfl
              · refine fst_ite_mem_cond _ _ _ (fun _ => ?_) (fun h1 => ?_)
                · exact of_decide_eq_true rfl
                · refine fst_ite_mem_cond _ _ _ (fun _ => ?_) (fun h2 => ?_)
                  · exact of_decide_eq_true rfl
                  · refine fst_ite_mem_cond _ _ _ (fun _ => ?_) (fun h3 => ?_)
                    · exact of_decide_eq_true rfl
                    · exfalso
                      rw [and_3_eq_mod] at h0 h1 h2 h3
                      omega
            · repeat (first | exact of_decide_eq_true rfl | apply fst_ite_mem | apply ite_mem)

/-- C8: both decoders are pure total functions into the fixed mnemonic
sets.  They are Lean functions, hence deterministic (identical input
yields identical output definitionally) and total over the whole `Nat`
domain, in particular over all 32-bit (ARM) and 16-bit (Thumb) values.
Membership in the fixed sets also certifies that no internal table
lookup is ever out of range: the `"T_INDEX_ERROR"` and
`"T_NONE_RETURNED"` sentinels, which mark exactly the spots where
Python indexing would fail, are not in the sets. -/
theorem decoders_total_and_enumerated :
    (∀ i : Nat, (decode_instruction i).1 ∈ armMnemonics) ∧
    (∀ i : Nat, (decode_thumb_instruction i).1 ∈ thumbMnemonics) :=
  ⟨decode_arm_mnemonic_mem, decode_thumb_mnemonic_mem⟩

/- ================================================================
   Branch semantics, C6
   ================================================================ -/

theorem opGet_head (k : String) (v : Int) (rest : List (String × Int)) :
    opGet ((k, v) :: rest) k = v := by
  simp [opGet]

theorem opGet_tail (k k2 : String) (v : Int) (rest : List (String × Int))
    (h : (k2 == k) = false) : opGet ((k, v) :: rest) k2 = opGet rest k2 := by
  simp [opGet, List.lookup, h]

theorem getD_set_ne (l : List α) (i j : Nat) (x d : α) (h : i ≠ j) :
    (l.set i x).getD j d = l.getD j d := by
  rw [List.getD_eq_getElem?_getD, List.getD_eq_getElem?_getD, List.getElem?_set_ne h]

theorem high_bit_iff {k : Nat} (raw : Nat) (h : raw < 2 ^ (k + 1)) :
    (raw &&& 2 ^ k ≠ 0) ↔ 2 ^ k ≤ raw := by
  rw [Nat.and_two_pow]
  constructor
  · intro h1
    have hb : raw.testBit k = true := by
      by_contra hb
      rw [Bool.not_eq_true] at hb
      rw [hb] at h1
      simp at h1
    exact Nat.testBit_implies_ge hb
  · intro h1
    have hdiv : raw / 2 ^ k = 1 := by
      apply Nat.div_eq_of_lt_le
      · simpa using h1
      · have h2 : (2:Nat) ^ (k + 1) = 2 ^ k * 2 := by ring
        rw [h2] at h
        omega
    have hb : raw.testBit k = true := by
      rw [Nat.testBit_to_div_mod, hdiv]
      decide
    rw [hb]
    simp [(Nat.two_pow_pos k).ne']

theorem int_bit_23_neg (off : Int) (h1 : -(2 ^ 23) ≤ off) (h2 : off < 0) :
    int_bit off 23 = true := by
  unfold int_bit
  simp only [decide_eq_true_eq]
  omega

theorem int_bit_23_pos (off : Int) (h1 : 0 ≤ off) (h2 : off < 2 ^ 23) :
    int_bit off 23 = false := by
  unfold int_bit
  simp only [decide_eq_false_iff_not]
  omega

theorem or_ff000000_neg (off : Int) (h1 : -(2 ^ 24) ≤ off) (h2 : off < 0) :
    or_ff000000 off = off := by
  unfold or_ff000000
  have hfd : off.fdiv (2 ^ 24) = -1 := by
    rw [Int.fdiv_eq_ediv off (by norm_num)]
    omega
  rw [hfd]
  norm_num

/-- The branch handlers in terms of the spec-side sign extension: from a
decoder offset `(raw : Int) - 2^24` (bit 23 set) or `(raw : Int)` (bit
23 clear), the handler's re-extension stanza is the identity, and the
new PC is `(pc + 8 + offset * 4) mod 2^32`. -/
theorem execute_arm_branch_pc (s : ExecState) (off : Int)
    (h1 : -(2 ^ 23) ≤ off) (h2 : off < 2 ^ 23) (hlen : s.registers.length = 16) :
    getReg (execute_arm_branch s [("offset", off)]) 15
      = mask32 ((getReg s 15 : Int) + 8 + off * 4) := by
  simp only [execute_arm_branch]
  rw [opGet_head]
  rcases lt_or_ge off 0 with hneg | hpos
  · rw [int_bit_23_neg off h1 hneg, if_pos rfl, or_ff000000_neg off (by omega) hneg]
    exact getD_set_self _ _ _ _ (by omega)
  · rw [int_bit_23_pos off hpos h2]
    simp only [Bool.false_eq_true, if_false]
    exact getD_set_self _ _ _ _ (by omega)

/-- Same for BL, which first stores LR := PC + 4 unmasked. -/
theorem execute_arm_branch_link_pc (s : ExecState) (off : Int)
    (h1 : -(2 ^ 23) ≤ off) (h2 : off < 2 ^ 23) (hlen : s.registers.length = 16) :
    getReg (execute_arm_branch_link s [("offset", off)]) 15
      = mask32 ((getReg s 15 : Int) + 8 + off * 4) ∧
    getReg (execute_arm_branch_link s [("offset", off)]) 14 = getReg s 15 + 4 := by
  simp only [execute_arm_branch_link]
  rw [opGet_head]
  constructor
  · have hpc : getReg (setReg s 14 (getReg s 15 + 4)) 15 = getReg s 15 := by
      unfold setReg
      exact getD_set_ne _ _ _ _ _ (by omega)
    rcases lt_or_ge off 0 with hneg | hpos
    · rw [int_bit_23_neg off h1 hneg, if_pos rfl, or_ff000000_neg off (by omega) hneg]
      unfold setReg getReg at *
      rw [getD_set_self _ _ _ _ (by simp [hlen]), hpc]
    · rw [int_bit_23_pos off hpos h2]
      simp only [Bool.false_eq_true, if_false]
      unfold setReg getReg at *
      rw [getD_set_self _ _ _ _ (by simp [hlen]), hpc]
  · rcases lt_or_ge off 0 with hneg | hpos
    · rw [int_bit_23_neg off h1 hneg, if_pos rfl, or_ff000000_neg off (by omega) hneg]
      unfold setReg getReg
      rw [getD_set_ne _ _ _ _ _ (by omega), getD_set_self _ _ _ _ (by simp [hlen])]
    · rw [int_bit_23_pos off hpos h2]
      simp only [Bool.false_eq_true, if_false]
      unfold setReg getReg
      rw [getD_set_ne _ _ _ _ _ (by omega), getD_set_self _ _ _ _ (by simp [hlen])]

/-- The ARM decoder on the branch class (bits 27:26 = 10) emits B or BL
(by bit 24) with the sign-extended 24-bit offset. -/
theorem decode_instruction_branch (i : Nat) (hty : (i >>> 26) &&& 3 = 2) :
    decode_instruction i =
      (if (i >>> 24) &&& 1 = 1 then
        ("BL", [("offset",
          if i &&& 0xFFFFFF &&& 0x800000 ≠ 0 then ((i &&& 0xFFFFFF : Nat) : Int) - 0x1000000
          else ((i &&& 0xFFFFFF : Nat) : Int))])
      else
        ("B", [("offset",
          if i &&& 0xFFFFFF &&& 0x800000 ≠ 0 then ((i &&& 0xFFFFFF : Nat) : Int) - 0x1000000
          else ((i &&& 0xFFFFFF : Nat) : Int))])) := by
  have hbx : ¬(i &&& 0x0FFFFFF0 = 0x012FFF10) := by
    intro hbx
    have h27 := congrArg (fun x => x.testBit 27) hbx
    simp only [Nat.testBit_and] at h27
    rw [show (268435440 : Nat).testBit 27 = true from by decide,
      show (19922704 : Nat).testBit 27 = false from by decide, Bool.and_true] at h27
    rw [Nat.testBit_to_div_mod, decide_eq_false_iff_not] at h27
    have hd := hty
    rw [and_3_eq_mod, Nat.shiftRight_eq_div_pow] at hd
    have hdd : i / 2 ^ 27 = i / 2 ^ 26 / 2 := by
      rw [Nat.div_div_eq_div_mul]
      norm_num
    rw [hdd] at h27
    omega
  simp only [decode_instruction]
  rw [hty]
  rw [if_neg (by norm_num), if_neg hbx, if_neg (by norm_num), if_neg (by norm_num),
    if_pos rfl]

/-- C6: for every instruction in the ARM branch class (bits 27:26 = 10),
executing the dispatched handler sets
PC := (PC_at_fetch + 8 + (sign-extended 24-bit offset << 2)) mod 2^32;
when bit 24 (link) is set the handler is BL and additionally stores
LR := PC_at_fetch + 4.  In particular B at PC 0 with zero offset gives
PC 8, and BL at PC 0 with zero offset gives LR 4 and PC 8 (see the
witness). -/
theorem arm_branch_and_link_semantics (s : ExecState) (i : Nat)
    (hlen : s.registers.length = 16) (hty : (i >>> 26) &&& 3 = 2) :
    getReg (execute_arm_instruction s i) 15
      = mask32 ((getReg s 15 : Int) + 8 +
          (if 2 ^ 23 ≤ i &&& 0xFFFFFF then ((i &&& 0xFFFFFF : Nat) : Int) - 2 ^ 24
           else ((i &&& 0xFFFFFF : Nat) : Int)) * 4) ∧
    ((i >>> 24) &&& 1 = 1 →
      getReg (execute_arm_instruction s i) 14 = getReg s 15 + 4) := by
  have hraw : i &&& 0xFFFFFF < 2 ^ 24 := Nat.and_lt_two_pow i (by norm_num)
  have hiff : (i &&& 0xFFFFFF &&& 0x800000 ≠ 0) ↔ 2 ^ 23 ≤ i &&& 0xFFFFFF := by
    have h := high_bit_iff (k := 23) (i &&& 0xFFFFFF) hraw
    rw [show ((2:Nat) ^ 23) = 0x800000 from by norm_num] at h
    rw [show ((2:Nat) ^ 23) = 0x800000 from by norm_num]
    exact h
  have hsext : (if i &&& 0xFFFFFF &&& 0x800000 ≠ 0 then
        ((i &&& 0xFFFFFF : Nat) : Int) - 0x1000000 else ((i &&& 0xFFFFFF : Nat) : Int))
      = (if 2 ^ 23 ≤ i &&& 0xFFFFFF then ((i &&& 0xFFFFFF : Nat) : Int) - 2 ^ 24
         else ((i &&& 0xFFFFFF : Nat) : Int)) := by
    by_cases hc : 2 ^ 23 ≤ i &&& 0xFFFFFF
    · rw [if_pos hc, if_pos (hiff.mpr hc)]
      norm_num
    · rw [if_neg hc, if_neg (fun hb => hc (hiff.mp hb))]
  have hoff1 : -((2 : Int) ^ 23) ≤ (if 2 ^ 23 ≤ i &&& 0xFFFFFF
      then ((i &&& 0xFFFFFF : Nat) : Int) - 2 ^ 24 else ((i &&& 0xFFFFFF : Nat) : Int)) := by
    split <;> omega
  have hoff2 : (if 2 ^ 23 ≤ i &&& 0xFFFFFF
      then ((i &&& 0xFFFFFF : Nat) : Int) - 2 ^ 24 else ((i &&& 0xFFFFFF : Nat) : Int))
      < (2 : Int) ^ 23 := by
    have hc : ((i &&& 0xFFFFFF : Nat) : Int) < 2 ^ 24 := by exact_mod_cast hraw
    split <;> omega
  have hdec := decode_instruction_branch i hty
  rw [hsext] at hdec
  rcases Nat.lt_or_ge ((i >>> 24) &&& 1) 1 with hlink | hlink
  · have hlink0 : (i >>> 24) &&& 1 = 0 := by omega
    rw [if_neg (by rw [hlink0]; norm_num)] at hdec
    have hexec : execute_arm_instruction s i = execute_arm_branch s
        [("offset", if 2 ^ 23 ≤ i &&& 0xFFFFFF then ((i &&& 0xFFFFFF : Nat) : Int) - 2 ^ 24
          else ((i &&& 0xFFFFFF : Nat) : Int))] := by
      simp only [execute_arm_instruction, hdec, String.reduceEq, reduceIte]
    refine ⟨?_, ?_⟩
    · rw [hexec]
      exact execute_arm_branch_pc s _ hoff1 hoff2 hlen
    · intro hl
      rw [hlink0] at hl
      norm_num at hl
  · have hlink1 : (i >>> 24) &&& 1 = 1 := by
      have h := Nat.and_le_right (n := i >>> 24) (m := 1)
      omega
    rw [if_pos hlink1] at hdec
    have hexec : execute_arm_instruction s i = execute_arm_branch_link s
        [("offset", if 2 ^ 23 ≤ i &&& 0xFFFFFF then ((i &&& 0xFFFFFF : Nat) : Int) - 2 ^ 24
          else ((i &&& 0xFFFFFF : Nat) : Int))] := by
      simp only [execute_arm_instruction, hdec, String.reduceEq, reduceIte]
    have hbl := execute_arm_branch_link_pc s
      (if 2 ^ 23 ≤ i &&& 0xFFFFFF then ((i &&& 0xFFFFFF : Nat) : Int) - 2 ^ 24
       else ((i &&& 0xFFFFFF : Nat) : Int)) hoff1 hoff2 hlen
    refine ⟨?_, fun _ => ?_⟩
    · rw [hexec]
      exact hbl.1
    · rw [hexec]
      exact hbl.2

/-- C6 (witness): B fetched at PC 0 with zero offset gives target 8; BL
fetched at PC 0 with zero offset gives target 8 and LR 4. -/
theorem arm_branch_and_link_semantics_witness :
    getReg (execute_arm_instruction (initState [] 0 0 none) 0xEA000000) 15 = 8 ∧
    getReg (execute_arm_instruction (initState [] 0 0 none) 0xEB000000) 15 = 8 ∧
    getReg (execute_arm_instruction (initState [] 0 0 none) 0xEB000000) 14 = 4 := by
  have h1 := arm_branch_and_link_semantics (initState [] 0 0 none) 0xEA000000
    (by decide) (by decide)
  have h2 := arm_branch_and_link_semantics (initState [] 0 0 none) 0xEB000000
    (by decide) (by decide)
  refine ⟨?_, ?_, ?_⟩
  · rw [h1.1]; decide
  · rw [h2.1]; decide
  · rw [h2.2 (by decide)]; decide

/- ================================================================
   Thumb branch semantics, C10
   ================================================================ -/

theorem and_63_eq_mod (x : Nat) : x &&& 63 = x % 64 := by
  have h := Nat.and_pow_two_sub_one_eq_mod x 6
  norm_num at h
  exact h

theorem shiftRight_div_eq (i a b : Nat) :
    i >>> (a + b) = i >>> a / 2 ^ b := by
  rw [Nat.shiftRight_add, Nat.shiftRight_eq_div_pow]

/-- `execute_thumb_branch` on a single-offset operand list. -/
theorem execute_thumb_branch_pc (s : ExecState) (off : Int)
    (hlen : s.registers.length = 16) :
    getReg (execute_thumb_branch s [("offset", off)]) 15
      = mask32 ((getReg s 15 : Int) + 4 + off * 2) := by
  simp only [execute_thumb_branch]
  rw [opGet_head]
  exact getD_set_self _ _ _ _ (by omega)

/-- `execute_thumb_branch_conditional` on a taken condition. -/
theorem execute_thumb_branch_conditional_pc (s : ExecState) (cond : Nat) (off : Int)
    (hlen : s.registers.length = 16) (htaken : check_condition s cond = true) :
    getReg (execute_thumb_branch_conditional s
      [("condition", (cond : Int)), ("offset", off)]) 15
      = mask32 ((getReg s 15 : Int) + 4 + off * 2) := by
  have hcond : opGetN [("condition", (cond : Int)), ("offset", off)] "condition" = cond := by
    unfold opGetN
    rw [opGet_head]
    exact Int.toNat_natCast cond
  have hoff : opGet [("condition", (cond : Int)), ("offset", off)] "offset" = off := by
    rw [opGet_tail _ _ _ _ (by decide), opGet_head]
  simp only [execute_thumb_branch_conditional]
  rw [hcond, htaken, if_pos rfl, hoff]
  exact getD_set_self _ _ _ _ (by omega)

/-- C10: the Thumb unconditional branch and every taken Thumb
conditional branch set PC := (PC_at_fetch + 4 + (decoded_offset << 1))
mod 2^32, where the decoded offset operand is already 2 times the
sign-extended raw offset field (8-bit for T_BCC, 11-bit for T_B) — so
the raw field is scaled by 4 in total, once at decode and once at
execute. -/
theorem thumb_branch_semantics (s : ExecState) (i : Nat)
    (hlen : s.registers.length = 16) :
    (i >>> 11 = 28 →
      (decode_thumb_instruction i).2
        = [("offset",
            (if 2 ^ 10 ≤ i &&& 0x7FF then ((i &&& 0x7FF : Nat) : Int) - 2 ^ 11
             else ((i &&& 0x7FF : Nat) : Int)) * 2)] ∧
      getReg (execute_thumb_instruction s i).1 15
        = mask32 ((getReg s 15 : Int) + 4 +
            ((if 2 ^ 10 ≤ i &&& 0x7FF then ((i &&& 0x7FF : Nat) : Int) - 2 ^ 11
              else ((i &&& 0x7FF : Nat) : Int)) * 2) * 2)) ∧
    (i >>> 12 = 13 → (i >>> 8) &&& 15 ≠ 15 →
      check_condition s ((i >>> 8) &&& 15) = true →
      (decode_thumb_instruction i).2
        = [("condition", (((i >>> 8) &&& 15 : Nat) : Int)),
           ("offset",
            (if 2 ^ 7 ≤ i &&& 0xFF then ((i &&& 0xFF : Nat) : Int) - 2 ^ 8
             else ((i &&& 0xFF : Nat) : Int)) * 2)] ∧
      getReg (execute_thumb_instruction s i).1 15
        = mask32 ((getReg s 15 : Int) + 4 +
            ((if 2 ^ 7 ≤ i &&& 0xFF then ((i &&& 0xFF : Nat) : Int) - 2 ^ 8
              else ((i &&& 0xFF : Nat) : Int)) * 2) * 2)) := by
  have e1 : (i >>> 13) &&& 7 = i >>> 10 / 8 % 8 := by
    rw [show (13 : Nat) = 10 + 3 from rfl, shiftRight_div_eq, and_7_eq_mod]
    norm_num
  have e2 : (i >>> 11) &&& 31 = i >>> 10 / 2 % 32 := by
    rw [show (11 : Nat) = 10 + 1 from rfl, shiftRight_div_eq, and_31_eq_mod]
    norm_num
  have e3 : (i >>> 10) &&& 63 = i >>> 10 % 64 := and_63_eq_mod _
  have e4 : i >>> 12 = i >>> 10 / 4 := by
    rw [show (12 : Nat) = 10 + 2 from rfl, shiftRight_div_eq]
    norm_num
  have e5 : i >>> 11 = i >>> 10 / 2 := by
    rw [show (11 : Nat) = 10 + 1 from rfl, shiftRight_div_eq]
    norm_num
  constructor
  · -- T_B
    intro hin
    have hin' : i >>> 10 / 2 = 28 := by rw [← e5]; exact hin
    have hraw : i &&& 0x7FF < 2 ^ 11 := Nat.and_lt_two_pow i (by norm_num)
    have hiff : (i &&& 0x7FF &&& 0x400 ≠ 0) ↔ 2 ^ 10 ≤ i &&& 0x7FF := by
      have h := high_bit_iff (k := 10) (i &&& 0x7FF) hraw
      rw [show ((2:Nat) ^ 10) = 0x400 from by norm_num] at h
      rw [show ((2:Nat) ^ 10) = 0x400 from by norm_num]
      exact h
    have hsext : (if i &&& 0x7FF &&& 0x400 ≠ 0 then ((i &&& 0x7FF : Nat) : Int) - 0x800
        else ((i &&& 0x7FF : Nat) : Int))
        = (if 2 ^ 10 ≤ i &&& 0x7FF then ((i &&& 0x7FF : Nat) : Int) - 2 ^ 11
           else ((i &&& 0x7FF : Nat) : Int)) := by
      by_cases hc : 2 ^ 10 ≤ i &&& 0x7FF
      · rw [if_pos hc, if_pos (hiff.mpr hc)]
        norm_num
      · rw [if_neg hc, if_neg (fun hb => hc (hiff.mp hb))]
    have hdec : decode_thumb_instruction i
        = ("T_B", [("offset",
            (if 2 ^ 10 ≤ i &&& 0x7FF then ((i &&& 0x7FF : Nat) : Int) - 2 ^ 11
             else ((i &&& 0x7FF : Nat) : Int)) * 2)]) := by
      simp only [decode_thumb_instruction]
      rw [if_neg (by rw [e1]; omega), if_neg (by rw [e2]; omega),
        if_neg (by rw [e1]; omega), if_neg (by rw [e3]; omega),
        if_neg (by rw [e3]; omega), if_neg (by rw [e1]; omega),
        if_neg (by rw [e1]; omega),
        if_neg (by intro hconj; obtain ⟨ha, _⟩ := hconj; rw [e4] at ha; omega),
        if_pos hin, hsext]
    refine ⟨by rw [hdec], ?_⟩
    have hexec : execute_thumb_instruction s i
        = (execute_thumb_branch s [("offset",
            (if 2 ^ 10 ≤ i &&& 0x7FF then ((i &&& 0x7FF : Nat) : Int) - 2 ^ 11
             else ((i &&& 0x7FF : Nat) : Int)) * 2)], none) := by
      simp only [execute_thumb_instruction, hdec, String.reduceEq, reduceIte]
    rw [hexec]
    exact execute_thumb_branch_pc s _ hlen
  · -- T_BCC (taken)
    intro hc hno htaken
    have hc' : i >>> 10 / 4 = 13 := by rw [← e4]; exact hc
    have hraw : i &&& 0xFF < 2 ^ 8 := Nat.and_lt_two_pow i (by norm_num)
    have hiff : (i &&& 0xFF &&& 0x80 ≠ 0) ↔ 2 ^ 7 ≤ i &&& 0xFF := by
      have h := high_bit_iff (k := 7) (i &&& 0xFF) hraw
      rw [show ((2:Nat) ^ 7) = 0x80 from by norm_num] at h
      rw [show ((2:Nat) ^ 7) = 0x80 from by norm_num]
      exact h
    have hsext : (if i &&& 0xFF &&& 0x80 ≠ 0 then ((i &&& 0xFF : Nat) : Int) - 0x100
        else ((i &&& 0xFF : Nat) : Int))
        = (if 2 ^ 7 ≤ i &&& 0xFF then ((i &&& 0xFF : Nat) : Int) - 2 ^ 8
           else ((i &&& 0xFF : Nat) : Int)) := by
      by_cases hcc : 2 ^ 7 ≤ i &&& 0xFF
      · rw [if_pos hcc, if_pos (hiff.mpr hcc)]
        norm_num
      · rw [if_neg hcc, if_neg (fun hb => hcc (hiff.mp hb))]
    have hdec : decode_thumb_instruction i
        = ("T_BCC", [("condition", (((i >>> 8) &&& 15 : Nat) : Int)),
            ("offset",
             (if 2 ^ 7 ≤ i &&& 0xFF then ((i &&& 0xFF : Nat) : Int) - 2 ^ 8
              else ((i &&& 0xFF : Nat) : Int)) * 2)]) := by
      simp only [decode_thumb_instruction]
      rw [if_neg (by rw [e1]; omega), if_neg (by rw [e2]; omega),
        if_neg (by rw [e1]; omega), if_neg (by rw [e3]; omega),
        if_neg (by rw [e3]; omega), if_neg (by rw [e1]; omega),
        if_neg (by rw [e1]; omega),
        if_pos ⟨hc, hno⟩, hsext]
    refine ⟨by rw [hdec], ?_⟩
    have hexec : execute_thumb_instruction s i
        = (execute_thumb_branch_conditional s
            [("condition", (((i >>> 8) &&& 15 : Nat) : Int)),
             ("offset",
              (if 2 ^ 7 ≤ i &&& 0xFF then ((i &&& 0xFF : Nat) : Int) - 2 ^ 8
               else ((i &&& 0xFF : Nat) : Int)) * 2)], none) := by
      simp only [execute_thumb_instruction, hdec, String.reduceEq, reduceIte]
    rw [hexec]
    exact execute_thumb_branch_conditional_pc s _ _ hlen htaken

/-- C10 (witness): T_B (0xE000, zero offset) at PC 0 branches to 4; a
taken T_BCC (0xD100, condition NE with clear flags, zero offset) at PC 0
branches to 4; the decoded T_B offset operand of 0xE001 is 2 (raw field
1 scaled once at decode). -/
theorem thumb_branch_semantics_witness :
    getReg (execute_thumb_instruction (initState [] 0 0 none) 0xE000).1 15 = 4 ∧
    getReg (execute_thumb_instruction (initState [] 0 0 none) 0xD100).1 15 = 4 ∧
    (decode_thumb_instruction 0xE001).2 = [("offset", 2)] := by
  have h1 := (thumb_branch_semantics (initState [] 0 0 none) 0xE000 (by decide)).1
    (by decide)
  have h2 := (thumb_branch_semantics (initState [] 0 0 none) 0xD100 (by decide)).2
    (by decide) (by decide) (by decide)
  have h3 := (thumb_branch_semantics (initState [] 0 0 none) 0xE001 (by decide)).1
    (by decide)
  refine ⟨?_, ?_, ?_⟩
  · rw [h1.2]; decide
  · rw [h2.2]; decide
  · rw [h3.1]; decide

/- ================================================================
   C3: Thumb store/load defects
   ================================================================ -/

/-- C3 (code_bug evidence): executing Thumb STR with R1 = 42, R0 = 0 and
no cache leaves memory completely untouched (the handler never calls
`write_memory_word`, even though its own trace print claims
`MEM[...] = R1`), so the word at the effective address 0 reads back 0,
not 42; and executing Thumb LDR with a cache attached raises (the source
calls `access_data(address)` without the mandatory `is_write`
argument), leaving the destination register unwritten. -/
theorem thumb_str_no_write_and_ldr_raises :
    (execute_thumb_str
        { initState [] 0 0 none with registers := (List.replicate 16 0).set 1 42 }
        [("rd", 1), ("rb", 0), ("offset", 0)]).memory
      = (initState [] 0 0 none).memory ∧
    read_memory_word (execute_thumb_str
        { initState [] 0 0 none with registers := (List.replicate 16 0).set 1 42 }
        [("rd", 1), ("rb", 0), ("offset", 0)]).memory 0 = 0 ∧
    getReg { initState [] 0 0 none with registers := (List.replicate 16 0).set 1 42 } 1
      = 42 ∧
    (execute_thumb_ldr
        { initState [] 0 0 none with
            cache := some (CacheSimulator.make (BaseCache.make 8 8 "direct")
              (BaseCache.make 8 8 "direct") (BaseCache.make 64 32 "direct")) }
        [("rd", 1), ("rb", 0), ("offset", 0)]).2.isSome = true ∧
    (execute_thumb_ldr
        { initState [] 0 0 none with
            cache := some (CacheSimulator.make (BaseCache.make 8 8 "direct")
              (BaseCache.make 8 8 "direct") (BaseCache.make 64 32 "direct")) }
        [("rd", 1), ("rb", 0), ("offset", 0)]).1.registers
      = (initState [] 0 0 none).registers := by
  refine ⟨rfl, ?_, by decide, rfl, rfl⟩
  decide

/- ================================================================
   C7: the execution loop
   ================================================================ -/

/-- Splitting an if-then-else under an arbitrary predicate. -/
theorem ite_prop {c : Prop} [Decidable c] {α : Sort _} (P : α → Prop) (a b : α)
    (ha : P a) (hb : P b) : P (if c then a else b) := by
  split
  · exact ha
  · exact hb

theorem ite_count {c : Prop} [Decidable c] (a b : ExecState) (n : Nat)
    (ha : a.instruction_count = n) (hb : b.instruction_count = n) :
    (if c then a else b).instruction_count = n := by
  split
  · exact ha
  · exact hb

theorem ite_max {c : Prop} [Decidable c] (a b : ExecState) (n : Nat)
    (ha : a.max_instructions = n) (hb : b.max_instructions = n) :
    (if c then a else b).max_instructions = n := by
  split
  · exact ha
  · exact hb

theorem ite_fst_count {c : Prop} [Decidable c] (a b : ExecState × Option String) (n : Nat)
    (ha : a.1.instruction_count = n) (hb : b.1.instruction_count = n) :
    (if c then a else b).1.instruction_count = n := by
  split
  · exact ha
  · exact hb

theorem ite_fst_max {c : Prop} [Decidable c] (a b : ExecState × Option String) (n : Nat)
    (ha : a.1.max_instructions = n) (hb : b.1.max_instructions = n) :
    (if c then a else b).1.max_instructions = n := by
  split
  · exact ha
  · exact hb

/-- No ARM handler touches the instruction counter or the ceiling. -/
theorem execute_arm_instruction_counts (s : ExecState) (i : Nat) :
    (execute_arm_instruction s i).instruction_count = s.instruction_count ∧
    (execute_arm_instruction s i).max_instructions = s.max_instructions := by
  rcases hsc : s.cache with _ | c
  · constructor
    · simp only [execute_arm_instruction, execute_arm_ldr, execute_arm_str, hsc]
      repeat (first | exact rfl | apply ite_count)
    · simp only [execute_arm_instruction, execute_arm_ldr, execute_arm_str, hsc]
      repeat (first | exact rfl | apply ite_max)
  · constructor
    · simp only [execute_arm_instruction, execute_arm_ldr, execute_arm_str, hsc]
      repeat (first | exact rfl | apply ite_count)
    · simp only [execute_arm_instruction, execute_arm_ldr, execute_arm_str, hsc]
      repeat (first | exact rfl | apply ite_max)

/-- No Thumb handler (nor the raising T_LDR path) touches the
instruction counter or the ceiling. -/
theorem execute_thumb_instruction_counts (s : ExecState) (i : Nat) :
    (execute_thumb_instruction s i).1.instruction_count = s.instruction_count ∧
    (execute_thumb_instruction s i).1.max_instructions = s.max_instructions := by
  rcases hsc : s.cache with _ | c
  · constructor
    · simp only [execute_thumb_instruction, execute_thumb_ldr, execute_thumb_str, hsc]
      repeat (first | exact rfl | apply ite_fst_count | apply ite_count)
    · simp only [execute_thumb_instruction, execute_thumb_ldr, execute_thumb_str, hsc]
      repeat (first | exact rfl | apply ite_fst_max | apply ite_max)
  · constructor
    · simp only [execute_thumb_instruction, execute_thumb_ldr, execute_thumb_str, hsc]
      repeat (first | exact rfl | apply ite_fst_count | apply ite_count)
    · simp only [execute_thumb_instruction, execute_thumb_ldr, execute_thumb_str, hsc]
      repeat (first | exact rfl | apply ite_fst_max | apply ite_max)

theorem arm_count_eq (s : ExecState) (i : Nat) :
    (execute_arm_instruction s i).instruction_count = s.instruction_count :=
  (execute_arm_instruction_counts s i).1

theorem arm_max_eq (s : ExecState) (i : Nat) :
    (execute_arm_instruction s i).max_instructions = s.max_instructions :=
  (execute_arm_instruction_counts s i).2

theorem thumb_count_eq (s : ExecState) (i : Nat) :
    (execute_thumb_instruction s i).1.instruction_count = s.instruction_count :=
  (execute_thumb_instruction_counts s i).1

theorem thumb_max_eq (s : ExecState) (i : Nat) :
    (execute_thumb_instruction s i).1.max_instructions = s.max_instructions :=
  (execute_thumb_instruction_counts s i).2

/-- A `next` step executes exactly one instruction and preserves the
ceiling. -/
theorem execute_program_step_next_counts (s s1 : ExecState)
    (h : execute_program_step s = .next s1) :
    s1.instruction_count = s.instruction_count + 1 ∧
    s1.max_instructions = s.max_instructions := by
  simp only [execute_program_step] at h
  repeat' split at h
  all_goals cases h
  all_goals constructor
  all_goals simp [setReg, arm_count_eq, arm_max_eq, thumb_count_eq, thumb_max_eq]

/-- A `brk` step leaves the state untouched. -/
theorem execute_program_step_brk (s s1 : ExecState)
    (h : execute_program_step s = .brk s1) : s1 = s := by
  simp only [execute_program_step] at h
  repeat' split at h
  all_goals cases h
  all_goals rfl

/-- A raising step does not advance the counter or the ceiling. -/
theorem execute_program_step_raised_counts (s s1 : ExecState) (msg : String)
    (h : execute_program_step s = .raised s1 msg) :
    s1.instruction_count = s.instruction_count ∧
    s1.max_instructions = s.max_instructions := by
  simp only [execute_program_step] at h
  repeat' split at h
  all_goals cases h
  all_goals constructor
  all_goals simp [thumb_count_eq, thumb_max_eq]

/-- Loop invariant: the final state's instruction count never exceeds
the (preserved) ceiling. -/
theorem execute_program_loop_count_le (fuel : Nat) (s : ExecState)
    (h : s.instruction_count ≤ s.max_instructions) :
    (execute_program_loop fuel s).state.instruction_count
      ≤ (execute_program_loop fuel s).state.max_instructions ∧
    (execute_program_loop fuel s).state.max_instructions = s.max_instructions := by
  induction fuel generalizing s with
  | zero => exact ⟨h, rfl⟩
  | succ n ih =>
    rw [execute_program_loop]
    split
    · rename_i hcond
      obtain ⟨hrun, hlt⟩ := hcond
      rcases hstep : execute_program_step s with s1 | s1 | ⟨s1, msg⟩
      · show (execute_program_loop n s1).state.instruction_count
            ≤ (execute_program_loop n s1).state.max_instructions ∧
          (execute_program_loop n s1).state.max_instructions = s.max_instructions
        obtain ⟨h1, h2⟩ := execute_program_step_next_counts s s1 hstep
        obtain ⟨ih1, ih2⟩ := ih s1 (by omega)
        exact ⟨ih1, ih2.trans h2⟩
      · rw [execute_program_step_brk s s1 hstep]
        exact ⟨h, rfl⟩
      · show (s1.instruction_count ≤ s1.max_instructions) ∧
          s1.max_instructions = s.max_instructions
        obtain ⟨h1, h2⟩ := execute_program_step_raised_counts s s1 msg hstep
        have hle : s1.instruction_count ≤ s1.max_instructions := by omega
        exact ⟨hle, h2⟩
    · exact ⟨h, rfl⟩

/- ================================================================
   C7: instruction-count ceiling and the self-branch program
   ================================================================ -/

/-- C7 counterexample: the single self-branch program
`[B .-8]` (encoding 0xEAFFFFFE, branching to its own address) does NOT
run to the 1000-instruction ceiling.  The branch handler recomputes
PC = 0, the loop sees PC unchanged and re-advances it by 4, so the very
next iteration is out of bounds: exactly 1 instruction executes, the run
ends with the out-of-bounds stop, and the "limit reached" message is not
printed. -/
theorem self_branch_stops_after_one_instruction :
    (execute_program (initState [(0xEAFFFFFE, "ARM")] 1 4 none)).state.instruction_count = 1 ∧
    ¬ (execute_program (initState [(0xEAFFFFFE, "ARM")] 1 4 none)).state.instruction_count
        = 1000 ∧
    (execute_program (initState [(0xEAFFFFFE, "ARM")] 1 4 none)).outOfBoundsStop = true ∧
    (execute_program (initState [(0xEAFFFFFE, "ARM")] 1 4 none)).limitReached = false := by
  decide

/-- C7 (amended): the execution loop never executes more than the
1000-instruction ceiling for any loaded program, and the limit-reached
signal is distinct from the out-of-bounds stop; but the single
self-branch program executes exactly one instruction and terminates via
the normal out-of-bounds stop (the engine re-advances an unchanged PC),
not via the ceiling. -/
theorem execution_count_never_exceeds_ceiling :
    (∀ (prog : List (Nat × String)) (ac tb : Nat) (cache : Option CacheSimulator),
      (execute_program (initState prog ac tb cache)).state.instruction_count ≤ 1000) ∧
    (execute_program (initState [(0xEAFFFFFE, "ARM")] 1 4 none)).state.instruction_count = 1 ∧
    (execute_program (initState [(0xEAFFFFFE, "ARM")] 1 4 none)).outOfBoundsStop = true ∧
    (execute_program (initState [(0xEAFFFFFE, "ARM")] 1 4 none)).limitReached = false := by
  refine ⟨?_, by decide⟩
  intro prog ac tb cache
  obtain ⟨h1, h2⟩ := execute_program_loop_count_le
    ((initState prog ac tb cache).max_instructions
      - (initState prog ac tb cache).instruction_count)
    (initState prog ac tb cache) (Nat.zero_le _)
  exact le_trans h1 (le_of_eq h2)

/- ================================================================
   C5 witness
   ================================================================ -/

/-- C5 witness: direct-mapped cache of one 8-byte block.  Address 0
misses fresh, an immediate second access to 0 hits, and the dirty line
(installed by the write) is evicted by address 8 with exactly one
write-back. -/
theorem cache_first_miss_second_hit_evict_witness :
    (0 < 8 ∧ 0 < 8 / 8) ∧
    ((BaseCache.make 8 8 "direct").access 0 true).1 = false ∧
    (((BaseCache.make 8 8 "direct").access 0 true).2.access 0 false).1 = true ∧
    (((BaseCache.make 8 8 "direct").access 0 true).2.access 8 false).1 = false ∧
    (((BaseCache.make 8 8 "direct").access 0 true).2.access 8 false).2.write_backs
      = ((BaseCache.make 8 8 "direct").access 0 true).2.write_backs + 1 := by
  have H := cache_first_miss_second_hit_evict 8 8 "direct" (by decide) (by decide)
  refine ⟨⟨by decide, by decide⟩, (H.1 0 true).1, H.2.1 0 true false, ?_, ?_⟩
  · exact (H.2.2 (((BaseCache.make 8 8 "direct").access 0 true).2) 8 false
      (by decide) (by decide) (by decide) (by decide)).1
  · have h3 := (H.2.2 (((BaseCache.make 8 8 "direct").access 0 true).2) 8 false
      (by decide) (by decide) (by decide) (by decide)).2.2.1
    rw [h3]
    decide

/- ================================================================
   C4: register values stay below 2^32
   ================================================================ -/

/-- Conditional register-bound propagation through one `if` of the ARM
dispatch tree. -/
theorem regsOk_ite_cond {c : Prop} [Decidable c] (a b : ExecState)
    (ha : c → RegsOk a) (hb : RegsOk b) : RegsOk (if c then a else b) := by
  by_cases h : c
  · rw [if_pos h]; exact ha h
  · rw [if_neg h]; exact hb

/-- Conditional register-bound propagation through one `if` of the Thumb
dispatch tree (whose branches also carry the optional exception). -/
theorem regsOk_fst_ite_cond {c : Prop} [Decidable c] (a b : ExecState × Option String)
    (ha : c → RegsOk a.1) (hb : RegsOk b.1) : RegsOk (if c then a else b).1 := by
  by_cases h : c
  · rw [if_pos h]; exact ha h
  · rw [if_neg h]; exact hb

/-- Bound propagation through an `if` on the second (operand-list)
component of a decoder result. -/
theorem snd_ite_bound {c : Prop} [Decidable c] (a b : String × Operands)
    (ha : ∀ p ∈ a.2, p.2 < (4294967296 : Int))
    (hb : ∀ p ∈ b.2, p.2 < (4294967296 : Int)) :
    ∀ p ∈ (if c then a else b).2, p.2 < (4294967296 : Int) := by
  split
  · exact ha
  · exact hb

/-- Every operand value the ARM decoder emits is below 2^32 (register
fields are 4-bit, immediates 12-bit, branch offsets 24-bit
sign-extended). -/
theorem decode_ops_lt (i : Nat) :
    ∀ p ∈ (decode_instruction i).2, p.2 < (4294967296 : Int) := by
  simp only [decode_instruction]
  repeat' apply snd_ite_bound
  all_goals intro p hp
  all_goals simp only [List.mem_cons, List.not_mem_nil, or_false] at hp
  all_goals repeat' (first | (rcases hp with rfl | hp) | (rcases hp with rfl))
  all_goals try simp only []
  all_goals
    (have b1 : i >>> 16 &&& 15 ≤ 15 := Nat.and_le_right
     have b2 : i &&& 15 ≤ 15 := Nat.and_le_right
     have b3 : i >>> 8 &&& 15 ≤ 15 := Nat.and_le_right
     have b4 : i >>> 12 &&& 15 ≤ 15 := Nat.and_le_right
     have b5 : i &&& 4095 ≤ 4095 := Nat.and_le_right
     have b6 : i &&& 16777215 ≤ 16777215 := Nat.and_le_right
     first
     | (split <;> omega)
     | omega)

/-- Every operand value the Thumb decoder emits on a 16-bit input is
below 2^32. -/
theorem decode_thumb_ops_lt (i : Nat) (hi : i < 65536) :
    ∀ p ∈ (decode_thumb_instruction i).2, p.2 < (4294967296 : Int) := by
  simp only [decode_thumb_instruction]
  repeat' apply snd_ite_bound
  all_goals intro p hp
  all_goals simp only [List.mem_cons, List.not_mem_nil, or_false] at hp
  all_goals repeat' (first | (rcases hp with rfl | hp) | (rcases hp with rfl))
  all_goals try simp only []
  all_goals
    (have b1 : i >>> 8 &&& 7 ≤ 7 := Nat.and_le_right
     have b2 : i &&& 255 ≤ 255 := Nat.and_le_right
     have b3 : i &&& 7 ≤ 7 := Nat.and_le_right
     have b4 : i >>> 3 &&& 7 ≤ 7 := Nat.and_le_right
     have b5 : i >>> 6 &&& 7 ≤ 7 := Nat.and_le_right
     have b6 : i >>> 6 &&& 31 ≤ 31 := Nat.and_le_right
     have b7 : i &&& 2047 ≤ 2047 := Nat.and_le_right
     have b8 : i >>> 8 &&& 15 ≤ 15 := Nat.and_le_right
     have c1 : (i >>> 7 &&& 1) <<< 3 < 2 ^ 4 := by
       have hx : i >>> 7 &&& 1 ≤ 1 := Nat.and_le_right
       rw [Nat.shiftLeft_eq]; omega
     have c2 : (i >>> 6 &&& 1) <<< 3 < 2 ^ 4 := by
       have hx : i >>> 6 &&& 1 ≤ 1 := Nat.and_le_right
       rw [Nat.shiftLeft_eq]; omega
     have d1 := Nat.or_lt_two_pow c1 (show i &&& 7 < 2 ^ 4 by omega)
     have d2 := Nat.or_lt_two_pow c2 (show i >>> 3 &&& 7 < 2 ^ 4 by omega)
     first
     | (split <;> omega)
     | omega)

/-- A dictionary read from a value-bounded operand list is bounded (the
missing-key default is 0). -/
theorem opGet_lt (ops : Operands) (k : String)
    (h : ∀ p ∈ ops, p.2 < (4294967296 : Int)) :
    opGet ops k < 4294967296 := by
  induction ops with
  | nil =>
    show (0 : Int) < 4294967296
    decide
  | cons q t ih =>
    obtain ⟨k1, v1⟩ := q
    show ((List.lookup k ((k1, v1) :: t)).getD 0) < 4294967296
    rw [List.lookup]
    split
    · show v1 < 4294967296
      exact h (k1, v1) (List.mem_cons_self _ _)
    · exact ih fun p hp => h p (List.mem_cons_of_mem _ hp)

/-- As `opGet_lt`, for the `Int.toNat` view used for register indices
and unsigned immediates. -/
theorem opGetN_lt (ops : Operands) (k : String)
    (h : ∀ p ∈ ops, p.2 < (4294967296 : Int)) :
    opGetN ops k < 2 ^ 32 := by
  have h1 := opGet_lt ops k h
  unfold opGetN
  omega

/-- Reading any register slot of an in-range register file gives an
in-range value (missing slots default to 0). -/
theorem getReg_lt (s : ExecState) (hr : RegsOk s) (i : Nat) :
    getReg s i < 2 ^ 32 := by
  unfold getReg
  rcases Nat.lt_or_ge i s.registers.length with hi | hi
  · rw [List.getD_eq_getElem?_getD, List.getElem?_eq_getElem hi, Option.getD_some]
    exact hr _ (List.getElem_mem hi)
  · rw [List.getD_eq_getElem?_getD, List.getElem?_eq_none hi, Option.getD_none]
    exact Nat.two_pow_pos 32

/-- Writing an in-range value preserves the register-file invariant. -/
theorem RegsOk_setReg (s : ExecState) (i v : Nat) (hr : RegsOk s) (hv : v < 2 ^ 32) :
    RegsOk (setReg s i v) := by
  intro r hmem
  rcases List.mem_or_eq_of_mem_set hmem with h1 | h1
  · exact hr r h1
  · exact h1 ▸ hv

/-- A word read from byte-bounded memory is below 2^32. -/
theorem read_memory_word_lt (m : Nat → Nat) (a : Nat) (hm : ∀ x, m x < 2 ^ 8) :
    read_memory_word m a < 2 ^ 32 := by
  rw [read_memory_word_eq m a (hm a) (hm (a + 1)) (hm (a + 2))]
  have h0 := hm a
  have h1 := hm (a + 1)
  have h2 := hm (a + 2)
  have h3 := hm (a + 3)
  omega

/-- `execute_arm_bx` keeps all registers below 2^32 (PC is masked). -/
theorem RegsOk_arm_bx (s : ExecState) (ops : Operands) (hr : RegsOk s) :
    RegsOk (execute_arm_bx s ops) := by
  simp only [execute_arm_bx]
  split
  · exact RegsOk_setReg _ _ _ (fun r h => hr r h)
      (lt_of_le_of_lt Nat.and_le_right (by norm_num))
  · exact RegsOk_setReg _ _ _ (fun r h => hr r h)
      (lt_of_le_of_lt Nat.and_le_right (by norm_num))

/-- `execute_arm_ldr` keeps all registers below 2^32 (the loaded word is
composed from bytes). -/
theorem RegsOk_arm_ldr (s : ExecState) (ops : Operands) (hr : RegsOk s) (hm : MemOk s) :
    RegsOk (execute_arm_ldr s ops) := by
  unfold execute_arm_ldr
  rcases hsc : s.cache with _ | c
  · exact RegsOk_setReg _ _ _ hr (read_memory_word_lt _ _ hm)
  · exact RegsOk_setReg _ _ _ (fun r h => hr r h) (read_memory_word_lt _ _ hm)

/-- `execute_arm_str` does not touch the register file. -/
theorem RegsOk_arm_str (s : ExecState) (ops : Operands) (hr : RegsOk s) :
    RegsOk (execute_arm_str s ops) := by
  unfold execute_arm_str
  rcases hsc : s.cache with _ | c
  · exact fun r h => hr r h
  · exact fun r h => hr r h

/-- `execute_thumb_ldr` keeps all registers below 2^32 in both the
raising (cache) and the loading (no-cache) path. -/
theorem RegsOk_thumb_ldr (s : ExecState) (ops : Operands) (hr : RegsOk s) (hm : MemOk s) :
    RegsOk (execute_thumb_ldr s ops).1 := by
  unfold execute_thumb_ldr
  rcases hsc : s.cache with _ | c
  · exact RegsOk_setReg _ _ _ hr (read_memory_word_lt _ _ hm)
  · exact fun r h => hr r h

/-- `execute_thumb_str` does not touch the register file. -/
theorem RegsOk_thumb_str (s : ExecState) (ops : Operands) (hr : RegsOk s) :
    RegsOk (execute_thumb_str s ops) := by
  unfold execute_thumb_str
  rcases hsc : s.cache with _ | c
  · exact fun r h => hr r h
  · exact fun r h => hr r h

/-- `execute_thumb_branch_conditional` keeps all registers below 2^32. -/
theorem RegsOk_thumb_bcc (s : ExecState) (ops : Operands) (hr : RegsOk s) :
    RegsOk (execute_thumb_branch_conditional s ops) := by
  unfold execute_thumb_branch_conditional
  split
  · exact RegsOk_setReg _ _ _ hr (mask32_lt _)
  · exact hr

/-- `execute_thumb_bx` keeps all registers below 2^32. -/
theorem RegsOk_thumb_bx (s : ExecState) (ops : Operands) (hr : RegsOk s) :
    RegsOk (execute_thumb_bx s ops) := by
  simp only [execute_thumb_bx]
  split
  · exact RegsOk_setReg _ _ _ (fun r h => hr r h)
      (lt_of_le_of_lt Nat.and_le_right (by norm_num))
  · exact RegsOk_setReg _ _ _ (fun r h => hr r h)
      (lt_of_le_of_lt Nat.and_le_right (by norm_num))

/-- Every ARM handler except BL preserves the register-file bound; BL
preserves it exactly when the unmasked LR value PC + 4 still fits. -/
theorem exec_arm_preserves_RegsOk (s : ExecState) (i : Nat)
    (hr : RegsOk s) (hm : MemOk s)
    (hbl : (decode_instruction i).1 = "BL" → getReg s 15 + 4 < 2 ^ 32) :
    RegsOk (execute_arm_instruction s i) := by
  have hops := decode_ops_lt i
  simp only [execute_arm_instruction]
  repeat' apply regsOk_ite_cond
  all_goals
    first
    | exact hr
    | (intro hc
       first
       | exact hr
       | exact RegsOk_setReg _ _ _ hr (mask32_lt _)
       | exact RegsOk_setReg _ _ _ hr (and_mask32_lt _)
       | exact RegsOk_setReg _ _ _ hr (getReg_lt s hr _)
       | exact RegsOk_setReg _ _ _ hr (opGetN_lt _ _ hops)
       | exact RegsOk_arm_ldr s _ hr hm
       | exact RegsOk_arm_str s _ hr
       | exact RegsOk_arm_bx s _ hr
       | exact RegsOk_setReg _ _ _ (RegsOk_setReg _ _ _ hr (hbl hc)) (mask32_lt _))

/-- Every Thumb handler preserves the register-file bound (all
arithmetic results are masked; the decoded immediates are at most
8-bit). -/
theorem exec_thumb_preserves_RegsOk (s : ExecState) (i : Nat)
    (hr : RegsOk s) (hm : MemOk s) (hi : i < 2 ^ 16) :
    RegsOk (execute_thumb_instruction s i).1 := by
  have hops := decode_thumb_ops_lt i (by omega)
  simp only [execute_thumb_instruction]
  repeat' apply regsOk_fst_ite_cond
  all_goals
    first
    | exact hr
    | (intro hc
       first
       | exact hr
       | exact RegsOk_setReg _ _ _ hr (mask32_lt _)
       | exact RegsOk_setReg _ _ _ hr (and_mask32_lt _)
       | exact RegsOk_setReg _ _ _ hr (getReg_lt s hr _)
       | exact RegsOk_setReg _ _ _ hr (opGetN_lt _ _ hops)
       | exact RegsOk_thumb_ldr s _ hr hm
       | exact RegsOk_thumb_str s _ hr
       | exact RegsOk_thumb_bcc s _ hr
       | exact RegsOk_thumb_bx s _ hr)

/-- C4 counterexample: a BL instruction executed at PC = 0xFFFFFFFC
writes LR = 0x100000000 = 2^32 into register 14 (the source does not
mask `registers[PC] + 4`), so the register file leaves [0, 2^32) even
though it was in range before the handler ran. -/
theorem bl_link_register_overflow :
    RegsOk { initState [] 0 0 none with
      registers := (List.replicate 16 0).set 15 0xFFFFFFFC } ∧
    getReg (execute_arm_instruction
      { initState [] 0 0 none with
        registers := (List.replicate 16 0).set 15 0xFFFFFFFC } 0xEB000000) 14 = 2 ^ 32 ∧
    ¬ RegsOk (execute_arm_instruction
      { initState [] 0 0 none with
        registers := (List.replicate 16 0).set 15 0xFFFFFFFC } 0xEB000000) := by
  have hA : ∀ r ∈ ((List.replicate 16 0).set 15 0xFFFFFFFC : List Nat), r < 2 ^ 32 := by
    decide
  refine ⟨hA, by decide, ?_⟩
  intro h
  exact absurd (h 4294967296 (by decide)) (by decide)

/-- C4 (amended): starting from any state whose registers are in
[0, 2^32) and whose memory holds bytes, a single dispatched
instruction-handler execution keeps every register slot in [0, 2^32) —
for every ARM instruction provided that, if it decodes to BL, the
unmasked link value PC + 4 still fits (the BL handler does not mask LR,
so this side condition is necessary), and for every 16-bit Thumb
instruction unconditionally; with or without a cache attached. -/
theorem registers_stay_in_range (s : ExecState) (iA iT : Nat)
    (hr : RegsOk s) (hm : MemOk s) (hT : iT < 2 ^ 16)
    (hbl : (decode_instruction iA).1 = "BL" → getReg s 15 + 4 < 2 ^ 32) :
    RegsOk (execute_arm_instruction s iA) ∧
    RegsOk (execute_thumb_instruction s iT).1 :=
  ⟨exec_arm_preserves_RegsOk s iA hr hm hbl,
   exec_thumb_preserves_RegsOk s iT hr hm hT⟩

/-- C4 witness: the initial state with an ADD and a Thumb MOV. -/
theorem registers_stay_in_range_witness :
    RegsOk (initState [] 0 0 none) ∧ MemOk (initState [] 0 0 none) ∧
    (0x2001 : Nat) < 2 ^ 16 ∧
    ((decode_instruction 0xEB000000).1 = "BL" →
      getReg (initState [] 0 0 none) 15 + 4 < 2 ^ 32) ∧
    (RegsOk (execute_arm_instruction (initState [] 0 0 none) 0xEB000000) ∧
     RegsOk (execute_thumb_instruction (initState [] 0 0 none) 0x2001).1) := by
  have h1 : RegsOk (initState [] 0 0 none) := by
    intro r hmem
    exact (by decide :
      ∀ x ∈ ((List.replicate 16 0).set 13 0x1000 : List Nat), x < 2 ^ 32) r hmem
  have h2 : MemOk (initState [] 0 0 none) := by
    intro a
    show (0 : Nat) < 2 ^ 8
    decide
  have h4 : (decode_instruction 0xEB000000).1 = "BL" →
      getReg (initState [] 0 0 none) 15 + 4 < 2 ^ 32 := fun _ => by decide
  exact ⟨h1, h2, by decide, h4,
    registers_stay_in_range (initState [] 0 0 none) 0xEB000000 0x2001 h1 h2 (by decide) h4⟩

end ArmSim
